import Mathlib

/-!
Shallow embedding of `udtc/frameworks/__init__.py` (ubuntu-make): the
category/framework plugin registry, program-name derivation,
default-framework conflict resolution, installability gating,
installation-state reporting, command dispatch (`run_for`) and the
discovery loader (`load_frameworks`).

Modelling conventions:
* Python objects become Lean structures; object identity is modelled by a
  numeric `id` drawn from a counter in `RegState` where aliasing matters.
* Python dicts (`NoneDict`) that preserve insertion order become
  association lists `List (String × _)`.
* Exceptions become `Except PyExc`; an external call that may raise is an
  `Option`-valued field of `Env`, with `none` standing for the raise.
* External collaborators (`RequirementsHandler`, `ConfigHandler`,
  `os.path.isdir`, `get_current_arch`, `get_current_ubuntu_version`,
  `is_completion_mode`, `os.geteuid`) are parameters packed in `Env`.
-/

/-- Python exceptions the embedded code can raise: attribute lookup
failure on an object missing a field, `KeyError` from the requirements
collaborator, and the explicit `raise BaseException(message)` in
`BaseCategory.run_for`. -/
inductive PyExc where
  | attributeError
  | keyError
  | baseException (msg : String)
  deriving DecidableEq, Repr

/-- The process environment: everything the module reads from outside the
registry itself. `bucket_installed`/`bucket_available` return `none` when
the underlying call raises; `config_path cat fw` is the persisted
`config["frameworks"][cat][fw]["path"]` entry, `none` when any lookup on
that path fails. -/
structure Env where
  completion_mode : Bool
  current_arch : Option String
  current_ubuntu_version : Option String
  bucket_installed : List String → Option Bool
  bucket_available : List String → Option Bool
  config_path : String → String → Option String
  isdir : String → Bool
  default_install_tools_path : String
  euid : Nat

/-- One framework object (class `BaseFramework`). `logo_path` mirrors the
source, which assigns `None` unconditionally (line 142). The three
`Option` fields at the end are the attributes the constructor only
assigns outside completion mode; `none` models the attribute being
absent from the object. `categoryId` is the back-reference to the owning
category, by object identity. -/
structure BaseFramework where
  name : String
  description : String
  logo_path : Option String
  categoryId : Nat
  is_category_default : Bool
  only_on_archs : List String
  only_ubuntu_version : List String
  packages_requirements : List String
  need_root_access : Option Bool
  default_install_path : Option String
  install_path : Option String
  deriving DecidableEq, Repr

/-- One category object (class `BaseCategory`). `frameworks` is the
insertion-ordered `NoneDict` from framework `prog_name` to framework.
The write-only attribute `self.default = None` (line 53) is never read
anywhere in the source and is omitted. `id` models object identity. -/
structure BaseCategory where
  id : Nat
  name : String
  description : String
  logo_path : Option String
  is_main_category : Bool
  frameworks : List (String × BaseFramework)
  packages_requirements : List String
  deriving DecidableEq, Repr

/-- The class-level registry `BaseCategory.categories` (a `NoneDict` from
category `prog_name` to category object), together with the fresh-object
counter used to model Python object identity. -/
structure RegState where
  registry : List (String × BaseCategory)
  nextId : Nat
  deriving DecidableEq, Repr

/-- `name.lower()` — Python `str.lower` on the ASCII range, applied
character by character (names in this program are ASCII). -/
def pyLower (s : String) : String :=
  String.mk (s.data.map Char.toLower)

/-- `s.replace(pat, rep)` for a one-character pattern and replacement,
which in Python is exactly a character-wise map. -/
def pyReplaceChar (s : String) (pat rep : Char) : String :=
  String.mk (s.data.map (fun c => if c = pat then rep else c))

/-- The shared program-name derivation used by both
`BaseCategory.prog_name` and `BaseFramework.prog_name`:
`name.lower().replace('/', '-').replace(' ', '-')`. -/
def progNameOf (name : String) : String :=
  pyReplaceChar (pyReplaceChar (pyLower name) '/' '-') ' ' '-'

/-- `BaseCategory.prog_name` (property, lines 69-72). -/
def BaseCategory.prog_name (cat : BaseCategory) : String :=
  progNameOf cat.name

/-- `BaseFramework.prog_name` (property, lines 213-216). -/
def BaseFramework.prog_name (f : BaseFramework) : String :=
  progNameOf f.name

/-- Membership test `k in d` on an insertion-ordered dict. -/
def containsKey {α : Type} (l : List (String × α)) (k : String) : Bool :=
  l.any (fun p => p.1 = k)

/-- Lookup `d[k]` on a `NoneDict`. Modelled from the spec: `NoneDict`
(from `udtc.tools`, not under `src/`) is a dict whose missing-key lookup
yields `None` instead of raising; here `none`. -/
def lookupKey {α : Type} (l : List (String × α)) (k : String) : Option α :=
  (l.find? (fun p => p.1 = k)).map Prod.snd

/-- `NOT_INSTALLED, PARTIALLY_INSTALLED, FULLY_INSTALLED = range(3)`. -/
def BaseCategory.NOT_INSTALLED : Nat := 0

/-- Second member of `range(3)` (line 45). -/
def BaseCategory.PARTIALLY_INSTALLED : Nat := 1

/-- Third member of `range(3)` (line 45). -/
def BaseCategory.FULLY_INSTALLED : Nat := 2

/-- `BaseCategory.main_category` (classproperty, lines 62-67): the first
registered category whose `is_main_category` is true, else `None`. -/
def BaseCategory.main_category (st : RegState) : Option BaseCategory :=
  (st.registry.find? (fun p => p.2.is_main_category)).map Prod.snd

/-- `BaseCategory.default_framework` (property, lines 74-80): the first
member framework with `is_category_default` true, else `None`. -/
def BaseCategory.default_framework (cat : BaseCategory) : Option BaseFramework :=
  (cat.frameworks.find? (fun p => p.2.is_category_default)).map Prod.snd

/-- `BaseCategory.register_framework` (lines 82-88): on a `prog_name`
collision the second registrant is dropped (an error is logged); else it
is inserted. -/
def BaseCategory.register_framework (cat : BaseCategory) (f : BaseFramework) : BaseCategory :=
  if containsKey cat.frameworks f.prog_name then cat
  else { cat with frameworks := cat.frameworks ++ [(f.prog_name, f)] }

/-- `BaseCategory.has_frameworks` (lines 115-117). -/
def BaseCategory.has_frameworks (cat : BaseCategory) : Bool :=
  0 < cat.frameworks.length

/-- `BaseCategory.has_one_framework` (lines 119-121). -/
def BaseCategory.has_one_framework (cat : BaseCategory) : Bool :=
  cat.frameworks.length = 1

/-- Constructor arguments of `BaseCategory.__init__` (line 48), with the
Python defaults. -/
structure CatArgs where
  name : String
  description : String := ""
  logo_path : Option String := none
  is_main_category : Bool := false
  packages_requirements : Option (List String) := none
  deriving DecidableEq, Repr

/-- `BaseCategory.__init__` (lines 48-60): build the object, then either
log a duplicate-name error and leave the registry unchanged, or insert
the new category under its `prog_name`. The constructed object is
returned in both cases (in Python the caller still holds it even when it
was not registered). -/
def BaseCategory.init (st : RegState) (args : CatArgs) : RegState × BaseCategory :=
  let cat : BaseCategory := {
    id := st.nextId
    name := args.name
    description := args.description
    logo_path := args.logo_path
    is_main_category := args.is_main_category
    frameworks := []
    packages_requirements := args.packages_requirements.getD [] }
  if containsKey st.registry cat.prog_name then
    ({ st with nextId := st.nextId + 1 }, cat)
  else
    ({ registry := st.registry ++ [(cat.prog_name, cat)], nextId := st.nextId + 1 }, cat)

/-- `MainCategory.__init__` (lines 268-271):
`super().__init__(name="main", is_main_category=True)`. -/
def MainCategory.init (st : RegState) : RegState × BaseCategory :=
  BaseCategory.init st { name := "main", is_main_category := true }

/-- The body of the `try` in `BaseFramework.is_installable`
(lines 192-207), last check first: requirement availability
(line 206-207); `none` models an exception escaping to the handler. -/
def BaseFramework.installableBucketCheck (env : Env) (f : BaseFramework) : Option Bool :=
  match env.bucket_available f.packages_requirements with
  | none => none
  | some avail => if ¬ avail then some false else some true

/-- Lines 200-205: the OS-version whitelist check, falling through to the
requirement-availability check. -/
def BaseFramework.installableVersionCheck (env : Env) (f : BaseFramework) : Option Bool :=
  if 0 < f.only_ubuntu_version.length then
    match env.current_ubuntu_version with
    | none => none
    | some current_version =>
      if ¬ (current_version ∈ f.only_ubuntu_version) then some false
      else BaseFramework.installableBucketCheck env f
  else BaseFramework.installableBucketCheck env f

/-- Lines 192-199: the architecture whitelist check, falling through to
the remaining checks. -/
def BaseFramework.installableChecks (env : Env) (f : BaseFramework) : Option Bool :=
  if 0 < f.only_on_archs.length then
    match env.current_arch with
    | none => none
    | some current_arch =>
      if ¬ (current_arch ∈ f.only_on_archs) then some false
      else BaseFramework.installableVersionCheck env f
  else BaseFramework.installableVersionCheck env f

/-- `BaseFramework.is_installable` (property, lines 189-211): the bare
`except:` turns any failure during detection into `False` (fail
closed). -/
def BaseFramework.is_installable (env : Env) (f : BaseFramework) : Bool :=
  (BaseFramework.installableChecks env f).getD false

/-- `BaseFramework.is_installed` (property, lines 246-254): reading
`self.install_path` on an object whose constructor returned early (completion
mode) raises `AttributeError`; otherwise the install directory must exist
and the requirement bucket must be installed (a `KeyError` from the
collaborator propagates, nothing suppresses it here). -/
def BaseFramework.is_installed (env : Env) (f : BaseFramework) : Except PyExc Bool :=
  match f.install_path with
  | none => .error .attributeError
  | some p =>
    if ¬ env.isdir p then .ok false
    else
      match env.bucket_installed f.packages_requirements with
      | none => .error .keyError
      | some b => if ¬ b then .ok false else .ok true

/-- The list comprehension of `BaseCategory.is_installed` (line 93),
collecting the member frameworks whose `is_installed` is true in order;
the first exception raised by a member propagates. -/
def installedFrameworks (env : Env) : List (String × BaseFramework) → Except PyExc (List BaseFramework)
  | [] => .ok []
  | p :: rest => do
    let b ← BaseFramework.is_installed env p.2
    let tl ← installedFrameworks env rest
    if b then return p.2 :: tl else return tl

/-- `BaseCategory.is_installed` (property, lines 90-98): the tri-state
count over member frameworks. -/
def BaseCategory.is_installed (env : Env) (cat : BaseCategory) : Except PyExc Nat := do
  let installed ← installedFrameworks env cat.frameworks
  if installed.length = 0 then
    return BaseCategory.NOT_INSTALLED
  else if installed.length = cat.frameworks.length then
    return BaseCategory.FULLY_INSTALLED
  else
    return BaseCategory.PARTIALLY_INSTALLED

/-- Python truthiness of the optional `args.framework` string: `None` and
the empty string are falsy. -/
def strFalsy : Option String → Bool
  | none => true
  | some s => s = ""

/-- `BaseCategory.run_for` (lines 123-133), modelled as returning the
framework whose `run_for` the dispatch delegates to. With a falsy
framework argument the category's default framework is used, and its
absence raises `BaseException` with the logged message (lines 127-130).
With a named framework, a `NoneDict` miss yields `None`, so the call
`None.run_for(args)` raises `AttributeError`. -/
def BaseCategory.run_for (cat : BaseCategory) (framework : Option String) :
    Except PyExc BaseFramework :=
  if strFalsy framework then
    match BaseCategory.default_framework cat with
    | none =>
      .error (.baseException
        ("A default framework for category " ++ cat.name ++ " was requested where there is none"))
    | some d => .ok d
  else
    match lookupKey cat.frameworks (framework.getD "") with
    | some f => .ok f
    | none => .error .attributeError

/-- Outcome of `BaseFramework.setup` (lines 218-236) when no exception is
raised. -/
inductive SetupOutcome where
  | refused
  | elevated
  | proceeded
  deriving DecidableEq, Repr

/-- `BaseFramework.setup` (lines 218-236). Not installable: log, return
to the main screen, return early (no attribute is touched). Otherwise
`self.need_root_access` is read — `AttributeError` on a completion-mode
object. Modelled from the spec: the root branch re-invokes the process
under sudo and `MainLoop().quit` (from `udtc.tools`, not under `src/`)
terminates the run with the child's status, so it is a terminal outcome
here. Otherwise the run proceeds as the plain user, and a truthy
`install_path` argument overrides the stored one (line 235-236). -/
def BaseFramework.setup (env : Env) (f : BaseFramework) (install_path : Option String) :
    Except PyExc (SetupOutcome × BaseFramework) :=
  if ¬ BaseFramework.is_installable env f then .ok (.refused, f)
  else
    match f.need_root_access with
    | none => .error .attributeError
    | some need_root =>
      if need_root ∧ env.euid ≠ 0 then .ok (.elevated, f)
      else
        match install_path with
        | some p => if p = "" then .ok (.proceeded, f) else .ok (.proceeded, { f with install_path := some p })
        | none => .ok (.proceeded, f)

/-- `BaseFramework.run_for` (lines 262-265): delegates to `setup` with
the parsed `destdir`. -/
def BaseFramework.run_for (env : Env) (f : BaseFramework) (destdir : Option String) :
    Except PyExc (SetupOutcome × BaseFramework) :=
  BaseFramework.setup env f destdir

/-- `os.path.join` for two components: an absolute second component wins,
an empty first component contributes nothing, otherwise a `/` separator
is inserted unless already present. -/
def joinPath (a b : String) : String :=
  if b.startsWith "/" then b
  else if a = "" then b
  else if a.endsWith "/" then a ++ b
  else a ++ "/" ++ b

/-- Constructor arguments of `BaseFramework.__init__` (lines 138-139),
with the Python defaults. -/
structure FwArgs where
  name : String
  description : String := ""
  logo_path : Option String := none
  is_category_default : Bool := false
  install_path_dir : Option String := none
  only_on_archs : Option (List String) := none
  only_ubuntu_version : Option (List String) := none
  packages_requirements : Option (List String) := none
  deriving DecidableEq, Repr

/-- Lines 140-148 of `BaseFramework.__init__`: the unconditional field
assignments (note line 142 assigns `logo_path = None` regardless of the
argument) and the extension of the requirement list by the category's. -/
def BaseFramework.initFields (args : FwArgs) (cat : BaseCategory) : BaseFramework := {
  name := args.name
  description := args.description
  logo_path := none
  categoryId := cat.id
  is_category_default := args.is_category_default
  only_on_archs := args.only_on_archs.getD []
  only_ubuntu_version := args.only_ubuntu_version.getD []
  packages_requirements := args.packages_requirements.getD [] ++ cat.packages_requirements
  need_root_access := none
  default_install_path := none
  install_path := none }

/-- The test `self.category == BaseCategory.main_category` (line 161):
object identity against the registry's main category, false when there is
none (`category == None` is false for an object). -/
def isMainCategoryOf (st : RegState) (cat : BaseCategory) : Bool :=
  match BaseCategory.main_category st with
  | some m => m.id = cat.id
  | none => false

/-- Line 169: `self.category.default_framework.is_category_default =
False` clears the flag of the first member framework that has it set. -/
def clearFirstDefault : List (String × BaseFramework) → List (String × BaseFramework)
  | [] => []
  | (k, f) :: rest =>
    if f.is_category_default then (k, { f with is_category_default := false }) :: rest
    else (k, f) :: clearFirstDefault rest

/-- Lines 156-158 of `BaseFramework.__init__`: compute
`need_root_access` from the requirement-installed check; a `KeyError` is
suppressed, leaving the initial `False`. -/
def BaseFramework.setNeedRoot (env : Env) (f : BaseFramework) : BaseFramework :=
  { f with need_root_access := some (
    match env.bucket_installed f.packages_requirements with
    | some b => !b
    | none => false) }

/-- Lines 160-169 of `BaseFramework.__init__`: resolve a default-framework
claim. A claim on the main category is rejected (flag cleared); a claim on
a category that already has a default clears both the claimant's flag and
the prior default's flag (via `clearFirstDefault`). -/
def BaseFramework.resolveDefaultConflict (st : RegState) (cat : BaseCategory)
    (f : BaseFramework) : BaseFramework × BaseCategory :=
  if f.is_category_default then
    if isMainCategoryOf st cat then
      ({ f with is_category_default := false }, cat)
    else if (BaseCategory.default_framework cat).isSome then
      ({ f with is_category_default := false },
       { cat with frameworks := clearFirstDefault cat.frameworks })
    else (f, cat)
  else (f, cat)

/-- Lines 171-175 of `BaseFramework.__init__`: derive the default install
path (a falsy `install_path_dir` — `None` or the empty string — falls
back to the category/framework-derived sub-directory) and store it as
both `default_install_path` and `install_path`. -/
def BaseFramework.setInstallPaths (env : Env) (args : FwArgs) (cat : BaseCategory)
    (f : BaseFramework) : BaseFramework :=
  let install_path_dir :=
    match args.install_path_dir with
    | none => joinPath (if cat.is_main_category then "" else cat.prog_name) f.prog_name
    | some s =>
      if s = "" then joinPath (if cat.is_main_category then "" else cat.prog_name) f.prog_name
      else s
  let dip := joinPath env.default_install_tools_path install_path_dir
  { f with default_install_path := some dip, install_path := some dip }

/-- Lines 176-180 of `BaseFramework.__init__`: a persisted configuration
entry overrides `install_path`; any lookup failure silently keeps the
default. -/
def BaseFramework.applyConfigOverride (env : Env) (cat : BaseCategory)
    (f : BaseFramework) : BaseFramework :=
  match env.config_path cat.prog_name f.prog_name with
  | some p => { f with install_path := some p }
  | none => f

/-- Lines 140-180 of `BaseFramework.__init__` (the non-completion path up
to, but not including, the registration decision): the field assignments,
`need_root_access` under `suppress(KeyError)` (lines 156-158), the
default-framework conflict resolution (lines 160-169, possibly mutating
the owning category), and the install-path resolution with the config
override (lines 171-180). Returns the framework and the possibly-mutated
category. -/
def BaseFramework.fwPre (env : Env) (args : FwArgs) (st : RegState) (cat : BaseCategory) :
    BaseFramework × BaseCategory :=
  let f := BaseFramework.setNeedRoot env (BaseFramework.initFields args cat)
  let fc := BaseFramework.resolveDefaultConflict st cat f
  let f2 := BaseFramework.applyConfigOverride env fc.2
    (BaseFramework.setInstallPaths env args fc.2 fc.1)
  (f2, fc.2)

/-- `BaseFramework.__init__` (lines 138-187). In completion mode the
framework registers unconditionally and the constructor returns at once
(lines 150-154). Otherwise, after `fwPre`, line 183 evaluates
`not self.is_installed and not self.is_installable` — an exception from
`is_installed` propagates out of the constructor (only the category
mutations already performed survive); a framework that is neither
installed nor installable is not registered (lines 183-185); otherwise it
is registered (line 187). Returns the final owning category and either
the constructed framework or the escaped exception. -/
def BaseFramework.init (env : Env) (args : FwArgs) (st : RegState) (cat : BaseCategory) :
    BaseCategory × Except PyExc BaseFramework :=
  if env.completion_mode then
    let f := BaseFramework.initFields args cat
    (BaseCategory.register_framework cat f, .ok f)
  else
    let fc := BaseFramework.fwPre env args st cat
    let f := fc.1
    let cat := fc.2
    match BaseFramework.is_installed env f with
    | .error e => (cat, .error e)
    | .ok inst =>
      if ¬ inst ∧ ¬ BaseFramework.is_installable env f then (cat, .ok f)
      else (BaseCategory.register_framework cat f, .ok f)

/-- Write back a mutated category object into every registry slot that
aliases it (object identity by `id`; ids are unique, so at most one
slot). -/
def updateRegistry (reg : List (String × BaseCategory)) (cat : BaseCategory) :
    List (String × BaseCategory) :=
  reg.map (fun p => if p.2.id = cat.id then (p.1, cat) else p)

/-- `BaseFramework.__init__` with the registry aliasing made explicit:
the mutations the constructor performs on the owning category are
reflected in the registry slot holding that category, if any. -/
def BaseFramework.initR (env : Env) (args : FwArgs) (st : RegState) (cat : BaseCategory) :
    RegState × BaseCategory × Except PyExc BaseFramework :=
  let r := BaseFramework.init env args st cat
  ({ st with registry := updateRegistry st.registry r.1 }, r.1, r.2)

/-- Packing a valid codepoint and reading it back is the identity. -/
theorem char_toNat_ofNat_valid (n : Nat) (h : n.isValidChar) : (Char.ofNat n).toNat = n := by
  simp only [Char.ofNat, dif_pos h]
  rfl

/-- `Char.toLower` written without the `let`. -/
theorem toLower_def (c : Char) :
    Char.toLower c = if c.toNat ≥ 65 ∧ c.toNat ≤ 90 then Char.ofNat (c.toNat + 32) else c := rfl

/-- ASCII lowering is idempotent. -/
theorem toLower_idem (c : Char) : Char.toLower (Char.toLower c) = Char.toLower c := by
  rw [toLower_def (Char.toLower c)]
  by_cases h : c.toNat ≥ 65 ∧ c.toNat ≤ 90
  · have hv : (c.toNat + 32).isValidChar := Or.inl (by omega)
    have h2 : (Char.toLower c).toNat = c.toNat + 32 := by
      rw [toLower_def c, if_pos h, char_toNat_ofNat_valid _ hv]
    rw [if_neg]
    rw [h2]
    omega
  · have h2 : Char.toLower c = c := by rw [toLower_def c, if_neg h]
    rw [h2, if_neg h]

/-- The per-character action of `progNameOf`. -/
def progChar (c : Char) : Char :=
  let d := Char.toLower c
  let e := if d = '/' then '-' else d
  if e = ' ' then '-' else e

/-- `progNameOf` acts character-wise as `progChar`. -/
theorem progNameOf_eq_map (s : String) :
    progNameOf s = String.mk (s.data.map progChar) := by
  simp only [progNameOf, pyLower, pyReplaceChar, List.map_map]
  rfl

/-- The per-character action is idempotent. -/
theorem progChar_idem (c : Char) : progChar (progChar c) = progChar c := by
  by_cases h1 : Char.toLower c = '/'
  · have hc : progChar c = '-' := by simp [progChar, h1]
    rw [hc]
    decide
  · by_cases h2 : Char.toLower c = ' '
    · have hc : progChar c = '-' := by simp [progChar, h1, h2]
      rw [hc]
      decide
    · have hc : progChar c = Char.toLower c := by simp [progChar, h1, h2]
      rw [hc]
      simp [progChar, toLower_idem c, h1, h2]

/-- C9: program-name derivation (lowercase, then replace every `/` and
every space with `-`) maps "My Tool/X" to "my-tool-x", and the
derivation is idempotent on every input string. -/
theorem C9_prog_name_derivation_idempotent :
    progNameOf "My Tool/X" = "my-tool-x" ∧
    ∀ s : String, progNameOf (progNameOf s) = progNameOf s := by
  constructor
  · rfl
  · intro s
    rw [progNameOf_eq_map s, progNameOf_eq_map]
    congr 1
    show (s.data.map progChar).map progChar = s.data.map progChar
    induction s.data with
    | nil => rfl
    | cons c l ih =>
      simp only [List.map_cons, List.cons.injEq]
      exact ⟨progChar_idem c, ih⟩

/-- A benign concrete environment used by the concrete evaluations:
everything present, everything installable and installed. -/
def sampleEnv : Env := {
  completion_mode := false
  current_arch := some "amd64"
  current_ubuntu_version := some "14.04"
  bucket_installed := fun _ => some true
  bucket_available := fun _ => some true
  config_path := fun _ _ => none
  isdir := fun _ => true
  default_install_tools_path := "/opt/udtc"
  euid := 1000 }

/-- A fully-constructed sample framework (as built outside completion
mode) for concrete evaluations. -/
def mkFw (name : String) (catId : Nat) (flag : Bool) : BaseFramework := {
  name := name
  description := ""
  logo_path := none
  categoryId := catId
  is_category_default := flag
  only_on_archs := []
  only_ubuntu_version := []
  packages_requirements := []
  need_root_access := some false
  default_install_path := some ("/opt/udtc/" ++ progNameOf name)
  install_path := some ("/opt/udtc/" ++ progNameOf name) }

/-- A sample category for concrete evaluations. -/
def mkCat (id : Nat) (name : String) (main : Bool)
    (fws : List (String × BaseFramework)) : BaseCategory := {
  id := id
  name := name
  description := ""
  logo_path := none
  is_main_category := main
  frameworks := fws
  packages_requirements := [] }

/-- An empty registry whose id counter is past the sample ids. -/
def stEmpty : RegState := { registry := [], nextId := 100 }

/-- C7: `run_for` on an invocation naming no framework raises the fatal
`BaseException` carrying the diagnostic that names the category exactly
when the category has no default framework; when a default exists the
dispatch delegates to it. -/
theorem C7_run_for_default_dispatch (cat : BaseCategory) :
    (BaseCategory.run_for cat none =
        .error (.baseException ("A default framework for category " ++ cat.name ++
          " was requested where there is none")) ↔
      BaseCategory.default_framework cat = none) ∧
    ∀ d, BaseCategory.default_framework cat = some d →
      BaseCategory.run_for cat none = .ok d := by
  cases h : BaseCategory.default_framework cat with
  | none =>
    refine ⟨⟨fun _ => rfl, fun _ => ?_⟩, fun d hd => by simp [h] at hd⟩
    simp [BaseCategory.run_for, strFalsy, h]
  | some d0 =>
    refine ⟨⟨fun hcontra => ?_, fun hn => by simp [h] at hn⟩, fun d hd => ?_⟩
    · simp [BaseCategory.run_for, strFalsy, h] at hcontra
    · injection hd with hd2
      subst hd2
      simp [BaseCategory.run_for, strFalsy, h]

/-- Concrete instantiation of the C7 theorem: a category whose second
framework is the default dispatches to it. -/
theorem C7_run_for_default_dispatch_witness :
    BaseCategory.run_for
        (mkCat 1 "web" false [("plain", mkFw "plain" 1 false), ("chosen", mkFw "chosen" 1 true)])
        none =
      .ok (mkFw "chosen" 1 true) :=
  (C7_run_for_default_dispatch _).2 (mkFw "chosen" 1 true) (by decide)

/-- C5: a category construction whose derived program-name collides with
a registered category leaves the registry unchanged (first registrant
wins, the conflict is only logged), and a framework registration whose
program-name collides with a member leaves the category unchanged. Both
operations are total functions of the model: no exception is raised. -/
theorem C5_duplicate_registration_first_wins (st : RegState) (args : CatArgs)
    (cat : BaseCategory) (f : BaseFramework) :
    (containsKey st.registry (progNameOf args.name) = true →
      (BaseCategory.init st args).1.registry = st.registry) ∧
    (containsKey cat.frameworks f.prog_name = true →
      BaseCategory.register_framework cat f = cat) := by
  constructor
  · intro h
    unfold BaseCategory.init
    simp only [BaseCategory.prog_name]
    rw [if_pos]
    exact h
  · intro h
    unfold BaseCategory.register_framework
    rw [if_pos]
    exact h

/-- Concrete instantiation of the C5 theorem: re-registering the "Web"
category (prog-name `web`) and the `editor` framework changes nothing. -/
theorem C5_duplicate_registration_first_wins_witness :
    (BaseCategory.init
        { registry := [("web", mkCat 1 "web" false [])], nextId := 2 }
        { name := "Web" }).1.registry = [("web", mkCat 1 "web" false [])] ∧
    BaseCategory.register_framework (mkCat 1 "web" false [("editor", mkFw "editor" 1 false)])
        (mkFw "editor" 1 false) =
      mkCat 1 "web" false [("editor", mkFw "editor" 1 false)] :=
  ⟨(C5_duplicate_registration_first_wins _ { name := "Web" } (mkCat 0 "x" false []) (mkFw "x" 0 false)).1 (by decide),
   (C5_duplicate_registration_first_wins stEmpty { name := "Web" } _ _).2 (by decide)⟩

/-- Does an `is_installed` evaluation return normally? -/
def exceptIsOk : Except PyExc Bool → Bool
  | .ok _ => true
  | .error _ => false

/-- Does an `is_installed` evaluation return `True`? -/
def isOkTrue : Except PyExc Bool → Bool
  | .ok true => true
  | _ => false

/-- When every member's `is_installed` returns normally, the installed
list comprehension returns normally and its length is the count of
members whose `is_installed` is true. -/
theorem installedFrameworks_length (env : Env) (l : List (String × BaseFramework))
    (h : ∀ p ∈ l, exceptIsOk (BaseFramework.is_installed env p.2) = true) :
    ∃ fs, installedFrameworks env l = .ok fs ∧
      fs.length = l.countP (fun p => isOkTrue (BaseFramework.is_installed env p.2)) := by
  induction l with
  | nil => exact ⟨[], rfl, rfl⟩
  | cons p rest ih =>
    obtain ⟨fs, h1, h2⟩ := ih (fun q hq => h q (List.mem_cons_of_mem p hq))
    have hp := h p (List.mem_cons_self p rest)
    cases hb : BaseFramework.is_installed env p.2 with
    | error e => rw [hb] at hp; simp [exceptIsOk] at hp
    | ok b =>
      cases b with
      | true =>
        refine ⟨p.2 :: fs, ?_, ?_⟩
        · simp only [installedFrameworks]
          rw [hb, h1]
          rfl
        · simp [List.countP_cons, isOkTrue, hb, h2]
      | false =>
        refine ⟨fs, ?_, ?_⟩
        · simp only [installedFrameworks]
          rw [hb, h1]
          rfl
        · simp [List.countP_cons, isOkTrue, hb, h2]

/-- Evaluation of the tri-state once the installed list is known. -/
theorem is_installed_of_installedFrameworks (env : Env) (cat : BaseCategory)
    (fs : List BaseFramework)
    (h1 : installedFrameworks env cat.frameworks = .ok fs) :
    BaseCategory.is_installed env cat = .ok (
      if fs.length = 0 then BaseCategory.NOT_INSTALLED
      else if fs.length = cat.frameworks.length then BaseCategory.FULLY_INSTALLED
      else BaseCategory.PARTIALLY_INSTALLED) := by
  have step : BaseCategory.is_installed env cat =
      (if fs.length = 0 then pure BaseCategory.NOT_INSTALLED
       else if fs.length = cat.frameworks.length then pure BaseCategory.FULLY_INSTALLED
       else pure BaseCategory.PARTIALLY_INSTALLED : Except PyExc Nat) := by
    unfold BaseCategory.is_installed
    rw [h1]
    rfl
  rw [step]
  by_cases hz : fs.length = 0
  · rw [if_pos hz, if_pos hz]
    rfl
  · rw [if_neg hz, if_neg hz]
    by_cases hf : fs.length = cat.frameworks.length
    · rw [if_pos hf, if_pos hf]
      rfl
    · rw [if_neg hf, if_neg hf]
      rfl

/-- C8: when every member's `is_installed` evaluates normally, the
category's tri-state `is_installed` is `NOT_INSTALLED` exactly on a zero
installed count (in particular on an empty category), `FULLY_INSTALLED`
when all of at least one member are installed, and
`PARTIALLY_INSTALLED` otherwise. -/
theorem C8_category_is_installed_tristate (env : Env) (cat : BaseCategory)
    (h : ∀ p ∈ cat.frameworks, exceptIsOk (BaseFramework.is_installed env p.2) = true) :
    (cat.frameworks.countP (fun p => isOkTrue (BaseFramework.is_installed env p.2)) = 0 →
      BaseCategory.is_installed env cat = .ok BaseCategory.NOT_INSTALLED) ∧
    (cat.frameworks.countP (fun p => isOkTrue (BaseFramework.is_installed env p.2)) =
        cat.frameworks.length ∧ 0 < cat.frameworks.length →
      BaseCategory.is_installed env cat = .ok BaseCategory.FULLY_INSTALLED) ∧
    (0 < cat.frameworks.countP (fun p => isOkTrue (BaseFramework.is_installed env p.2)) ∧
        cat.frameworks.countP (fun p => isOkTrue (BaseFramework.is_installed env p.2)) <
          cat.frameworks.length →
      BaseCategory.is_installed env cat = .ok BaseCategory.PARTIALLY_INSTALLED) := by
  obtain ⟨fs, h1, h2⟩ := installedFrameworks_length env cat.frameworks h
  have hev := is_installed_of_installedFrameworks env cat fs h1
  refine ⟨fun hz => ?_, fun hf => ?_, fun hp => ?_⟩
  · rw [hev, if_pos (by omega)]
  · rw [hev, if_neg (by omega), if_pos (by omega)]
  · rw [hev, if_neg (by omega), if_neg (by omega)]

/-- Concrete instantiation of the C8 theorem: two of three members
installed gives `PARTIALLY_INSTALLED` (the third's install directory is
missing). -/
theorem C8_category_is_installed_tristate_witness :
    BaseCategory.is_installed { sampleEnv with isdir := fun p => p ≠ "/gone" } (mkCat 4 "ide" false
        [("a", mkFw "a" 4 false), ("b", mkFw "b" 4 false),
         ("c", { mkFw "c" 4 false with install_path := some "/gone" })]) =
      .ok BaseCategory.PARTIALLY_INSTALLED :=
  (C8_category_is_installed_tristate _ _ (by decide)).2.2 (by decide)

/-- C2 counterexample: a category holding exactly one framework whose
`is_category_default` flag is false. `run_for` with no framework named
does not route to that lone framework: it raises the fatal
missing-default `BaseException`, because `run_for` (lines 123-133) only
consults `default_framework` and never `has_one_framework`. -/
theorem C2_single_framework_dispatch_counterexample :
    BaseCategory.has_one_framework (mkCat 7 "editors" false [("solo", mkFw "solo" 7 false)]) = true ∧
    BaseCategory.run_for (mkCat 7 "editors" false [("solo", mkFw "solo" 7 false)]) none ≠
      .ok (mkFw "solo" 7 false) ∧
    BaseCategory.run_for (mkCat 7 "editors" false [("solo", mkFw "solo" 7 false)]) none =
      .error (.baseException
        "A default framework for category editors was requested where there is none") := by
  refine ⟨rfl, fun hcontra => ?_, rfl⟩
  rw [show BaseCategory.run_for (mkCat 7 "editors" false [("solo", mkFw "solo" 7 false)]) none =
      .error (.baseException
        "A default framework for category editors was requested where there is none") from rfl]
    at hcontra
  exact Except.noConfusion hcontra

/-- C2 amended: on a category with exactly one framework, dispatch with
no framework named routes to that framework precisely when it is the
category default; otherwise the missing-default fatal error is
raised. -/
theorem C2_single_framework_dispatch (cat : BaseCategory) (k : String) (f : BaseFramework)
    (h : cat.frameworks = [(k, f)]) :
    BaseCategory.run_for cat none = .ok f ↔ f.is_category_default = true := by
  have hdf : BaseCategory.default_framework cat =
      (if f.is_category_default then some f else none) := by
    unfold BaseCategory.default_framework
    rw [h]
    cases hf : f.is_category_default with
    | true => simp [List.find?, hf]
    | false => simp [List.find?, hf]
  cases hf : f.is_category_default with
  | true =>
    rw [hf, if_pos rfl] at hdf
    simp [BaseCategory.run_for, strFalsy, hdf]
  | false =>
    rw [hf, if_neg (by simp [hf])] at hdf
    simp [BaseCategory.run_for, strFalsy, hdf]

/-- Concrete instantiation of the C2 amended theorem: the lone framework
is reached exactly when flagged default. -/
theorem C2_single_framework_dispatch_witness :
    BaseCategory.run_for (mkCat 8 "games" false [("only", mkFw "only" 8 true)]) none =
      .ok (mkFw "only" 8 true) :=
  (C2_single_framework_dispatch _ "only" (mkFw "only" 8 true) rfl).mpr rfl

/-- `setNeedRoot` only writes `need_root_access`. -/
theorem setNeedRoot_eq (env : Env) (f : BaseFramework) :
    ∃ r, BaseFramework.setNeedRoot env f = { f with need_root_access := r } :=
  ⟨_, rfl⟩

/-- `resolveDefaultConflict` only (possibly) clears the claimant's
flag. -/
theorem resolveDefaultConflict_fst_eq (st : RegState) (cat : BaseCategory) (f : BaseFramework) :
    ∃ b, (BaseFramework.resolveDefaultConflict st cat f).1 = { f with is_category_default := b } := by
  unfold BaseFramework.resolveDefaultConflict
  by_cases h1 : f.is_category_default
  · rw [if_pos h1]
    by_cases h2 : isMainCategoryOf st cat
    · rw [if_pos h2]
      exact ⟨false, rfl⟩
    · rw [if_neg h2]
      by_cases h3 : (BaseCategory.default_framework cat).isSome
      · rw [if_pos h3]
        exact ⟨false, rfl⟩
      · rw [if_neg h3]
        exact ⟨f.is_category_default, rfl⟩
  · rw [if_neg h1]
    exact ⟨f.is_category_default, rfl⟩

/-- `resolveDefaultConflict` returns the category either untouched or
with its first default's flag cleared. -/
theorem resolveDefaultConflict_snd_eq (st : RegState) (cat : BaseCategory) (f : BaseFramework) :
    (BaseFramework.resolveDefaultConflict st cat f).2 = cat ∨
    (BaseFramework.resolveDefaultConflict st cat f).2 =
      { cat with frameworks := clearFirstDefault cat.frameworks } := by
  unfold BaseFramework.resolveDefaultConflict
  by_cases h1 : f.is_category_default
  · rw [if_pos h1]
    by_cases h2 : isMainCategoryOf st cat
    · rw [if_pos h2]
      exact Or.inl rfl
    · rw [if_neg h2]
      by_cases h3 : (BaseCategory.default_framework cat).isSome
      · rw [if_pos h3]
        exact Or.inr rfl
      · rw [if_neg h3]
        exact Or.inl rfl
  · rw [if_neg h1]
    exact Or.inl rfl

/-- `setInstallPaths` only writes the two path fields. -/
theorem setInstallPaths_eq (env : Env) (args : FwArgs) (cat : BaseCategory) (f : BaseFramework) :
    ∃ d, BaseFramework.setInstallPaths env args cat f =
      { f with default_install_path := some d, install_path := some d } :=
  ⟨_, rfl⟩

/-- `applyConfigOverride` only (possibly) writes `install_path`. -/
theorem applyConfigOverride_eq (env : Env) (cat : BaseCategory) (f : BaseFramework) :
    ∃ ip, BaseFramework.applyConfigOverride env cat f = { f with install_path := ip } := by
  unfold BaseFramework.applyConfigOverride
  cases env.config_path cat.prog_name f.prog_name with
  | none => exact ⟨f.install_path, rfl⟩
  | some p => exact ⟨some p, rfl⟩

/-- `applyConfigOverride` preserves every field but `install_path`. -/
theorem applyConfigOverride_proj (env : Env) (cat : BaseCategory) (f : BaseFramework) :
    (BaseFramework.applyConfigOverride env cat f).name = f.name ∧
    (BaseFramework.applyConfigOverride env cat f).is_category_default = f.is_category_default ∧
    (BaseFramework.applyConfigOverride env cat f).only_on_archs = f.only_on_archs ∧
    (BaseFramework.applyConfigOverride env cat f).only_ubuntu_version = f.only_ubuntu_version ∧
    (BaseFramework.applyConfigOverride env cat f).packages_requirements = f.packages_requirements ∧
    (BaseFramework.applyConfigOverride env cat f).need_root_access = f.need_root_access := by
  obtain ⟨ip, h⟩ := applyConfigOverride_eq env cat f
  rw [h]
  exact ⟨rfl, rfl, rfl, rfl, rfl, rfl⟩

/-- `resolveDefaultConflict` preserves every framework field but the
default flag. -/
theorem resolveDefaultConflict_proj (st : RegState) (cat : BaseCategory) (f : BaseFramework) :
    (BaseFramework.resolveDefaultConflict st cat f).1.name = f.name ∧
    (BaseFramework.resolveDefaultConflict st cat f).1.only_on_archs = f.only_on_archs ∧
    (BaseFramework.resolveDefaultConflict st cat f).1.only_ubuntu_version = f.only_ubuntu_version ∧
    (BaseFramework.resolveDefaultConflict st cat f).1.packages_requirements =
      f.packages_requirements := by
  obtain ⟨b, h⟩ := resolveDefaultConflict_fst_eq st cat f
  rw [h]
  exact ⟨rfl, rfl, rfl, rfl⟩

/-- The framework built by the non-completion preamble agrees with the
constructor arguments on name, whitelists and requirements. -/
theorem fwPre_proj (env : Env) (args : FwArgs) (st : RegState) (cat : BaseCategory) :
    (BaseFramework.fwPre env args st cat).1.name = args.name ∧
    (BaseFramework.fwPre env args st cat).1.only_on_archs = args.only_on_archs.getD [] ∧
    (BaseFramework.fwPre env args st cat).1.only_ubuntu_version =
      args.only_ubuntu_version.getD [] ∧
    (BaseFramework.fwPre env args st cat).1.packages_requirements =
      args.packages_requirements.getD [] ++ cat.packages_requirements := by
  obtain ⟨h1, _, h3, h4, h5, _⟩ := applyConfigOverride_proj env
    (BaseFramework.resolveDefaultConflict st cat
      (BaseFramework.setNeedRoot env (BaseFramework.initFields args cat))).2
    (BaseFramework.setInstallPaths env args
      (BaseFramework.resolveDefaultConflict st cat
        (BaseFramework.setNeedRoot env (BaseFramework.initFields args cat))).2
      (BaseFramework.resolveDefaultConflict st cat
        (BaseFramework.setNeedRoot env (BaseFramework.initFields args cat))).1)
  obtain ⟨g1, g2, g3, g4⟩ := resolveDefaultConflict_proj st cat
    (BaseFramework.setNeedRoot env (BaseFramework.initFields args cat))
  exact ⟨h1.trans g1, h3.trans g2, h4.trans g3, h5.trans g4⟩

/-- The flag of the preamble's framework is the one the conflict
resolution decided. -/
theorem fwPre_flag_eq (env : Env) (args : FwArgs) (st : RegState) (cat : BaseCategory) :
    (BaseFramework.fwPre env args st cat).1.is_category_default =
      (BaseFramework.resolveDefaultConflict st cat
        (BaseFramework.setNeedRoot env (BaseFramework.initFields args cat))).1.is_category_default :=
  (applyConfigOverride_proj env _ _).2.1

/-- The category returned by the preamble is the one returned by the
conflict resolution. -/
theorem fwPre_snd_eq (env : Env) (args : FwArgs) (st : RegState) (cat : BaseCategory) :
    (BaseFramework.fwPre env args st cat).2 =
      (BaseFramework.resolveDefaultConflict st cat
        (BaseFramework.setNeedRoot env (BaseFramework.initFields args cat))).2 := rfl

/-- The constructor outside completion mode, case split on line 183:
an exception from `is_installed` escapes with the category as mutated by
the preamble. -/
theorem init_noncompletion_error (env : Env) (args : FwArgs) (st : RegState)
    (cat : BaseCategory) (e : PyExc) (hc : env.completion_mode = false)
    (he : BaseFramework.is_installed env (BaseFramework.fwPre env args st cat).1 = .error e) :
    BaseFramework.init env args st cat = ((BaseFramework.fwPre env args st cat).2, .error e) := by
  unfold BaseFramework.init
  rw [hc]
  simp only [Bool.false_eq_true, if_false]
  rw [he]

/-- The constructor outside completion mode when `is_installed` returns:
register unless neither installed nor installable. -/
theorem init_noncompletion_ok (env : Env) (args : FwArgs) (st : RegState)
    (cat : BaseCategory) (inst : Bool) (hc : env.completion_mode = false)
    (hi : BaseFramework.is_installed env (BaseFramework.fwPre env args st cat).1 = .ok inst) :
    BaseFramework.init env args st cat =
      (if ¬ inst = true ∧ ¬ BaseFramework.is_installable env (BaseFramework.fwPre env args st cat).1 = true then
        ((BaseFramework.fwPre env args st cat).2, .ok (BaseFramework.fwPre env args st cat).1)
      else
        (BaseCategory.register_framework (BaseFramework.fwPre env args st cat).2
           (BaseFramework.fwPre env args st cat).1,
         .ok (BaseFramework.fwPre env args st cat).1)) := by
  unfold BaseFramework.init
  rw [hc]
  simp only [Bool.false_eq_true, if_false]
  rw [hi]

/-- On the main category the conflict resolution always clears the
claimant's flag and leaves the category untouched. -/
theorem resolveDefaultConflict_main (st : RegState) (cat : BaseCategory) (f : BaseFramework)
    (hm : isMainCategoryOf st cat = true) :
    (BaseFramework.resolveDefaultConflict st cat f).1.is_category_default = false ∧
    (BaseFramework.resolveDefaultConflict st cat f).2 = cat := by
  unfold BaseFramework.resolveDefaultConflict
  by_cases h1 : f.is_category_default
  · rw [if_pos h1, if_pos hm]
    exact ⟨rfl, rfl⟩
  · rw [if_neg h1]
    exact ⟨by simpa using h1, rfl⟩

/-- A category has no default framework exactly when no member carries
the flag. -/
theorem default_framework_eq_none_iff (cat : BaseCategory) :
    BaseCategory.default_framework cat = none ↔
      ∀ p ∈ cat.frameworks, p.2.is_category_default = false := by
  unfold BaseCategory.default_framework
  rw [Option.map_eq_none', List.find?_eq_none]
  simp

/-- Registering a framework whose flag is clear cannot create a
default. -/
theorem register_preserves_no_default (cat : BaseCategory) (f : BaseFramework)
    (hd : BaseCategory.default_framework cat = none)
    (hf : f.is_category_default = false) :
    BaseCategory.default_framework (BaseCategory.register_framework cat f) = none := by
  unfold BaseCategory.register_framework
  by_cases hk : containsKey cat.frameworks f.prog_name = true
  · rw [if_pos hk]
    exact hd
  · rw [if_neg hk]
    rw [default_framework_eq_none_iff] at hd ⊢
    intro p hp
    rcases List.mem_append.mp hp with h1 | h2
    · exact hd p h1
    · rw [List.mem_singleton.mp h2]
      exact hf

/-- C6 amended: outside completion mode, a framework constructed into the
registry's main category always ends with `is_category_default` false
(an explicit `True` claim is rejected and cleared during construction),
and the main category's `default_framework` stays `None` whenever it was
`None`. (In completion mode — a counterexample to the claim as stated —
the constructor registers before the check and the flag survives.) -/
theorem C6_main_category_never_default (env : Env) (args : FwArgs) (st : RegState)
    (cat : BaseCategory) (hc : env.completion_mode = false)
    (hm : isMainCategoryOf st cat = true) :
    (∀ f, (BaseFramework.init env args st cat).2 = .ok f → f.is_category_default = false) ∧
    (BaseCategory.default_framework cat = none →
      BaseCategory.default_framework (BaseFramework.init env args st cat).1 = none) := by
  have hflag : (BaseFramework.fwPre env args st cat).1.is_category_default = false := by
    rw [fwPre_flag_eq]
    exact (resolveDefaultConflict_main st cat _ hm).1
  have hcat : (BaseFramework.fwPre env args st cat).2 = cat := by
    rw [fwPre_snd_eq]
    exact (resolveDefaultConflict_main st cat _ hm).2
  cases hi : BaseFramework.is_installed env (BaseFramework.fwPre env args st cat).1 with
  | error e =>
    rw [init_noncompletion_error env args st cat e hc hi]
    constructor
    · intro f hf
      exact Except.noConfusion hf
    · intro hd
      rw [hcat]
      exact hd
  | ok inst =>
    rw [init_noncompletion_ok env args st cat inst hc hi]
    by_cases hcond : ¬ inst = true ∧
        ¬ BaseFramework.is_installable env (BaseFramework.fwPre env args st cat).1 = true
    · rw [if_pos hcond]
      constructor
      · intro f hf
        injection hf with hf2
        rw [← hf2]
        exact hflag
      · intro hd
        rw [hcat]
        exact hd
    · rw [if_neg hcond]
      constructor
      · intro f hf
        injection hf with hf2
        rw [← hf2]
        exact hflag
      · intro hd
        rw [hcat]
        exact register_preserves_no_default cat _ hd hflag

/-- Concrete instantiation of the C6 amended theorem: outside completion
mode a default claim on the registered main category is rejected and the
main category keeps no default. -/
theorem C6_main_category_never_default_witness :
    (∀ f, (BaseFramework.init sampleEnv { name := "Fw A", is_category_default := true }
        { registry := [("main", mkCat 0 "main" true [])], nextId := 1 }
        (mkCat 0 "main" true [])).2 = .ok f → f.is_category_default = false) ∧
    BaseCategory.default_framework
      (BaseFramework.init sampleEnv { name := "Fw A", is_category_default := true }
        { registry := [("main", mkCat 0 "main" true [])], nextId := 1 }
        (mkCat 0 "main" true [])).1 = none := by
  have h := C6_main_category_never_default sampleEnv { name := "Fw A", is_category_default := true }
    { registry := [("main", mkCat 0 "main" true [])], nextId := 1 }
    (mkCat 0 "main" true []) rfl (by decide)
  exact ⟨h.1, h.2 rfl⟩

/-- C6 counterexample: in completion mode (lines 150-154 run before the
default check) a framework claiming default on the registered main
category keeps its flag and becomes the main category's default. -/
theorem C6_main_category_default_counterexample :
    (BaseFramework.init { sampleEnv with completion_mode := true }
        { name := "Fw A", is_category_default := true }
        { registry := [("main", mkCat 0 "main" true [])], nextId := 1 }
        (mkCat 0 "main" true [])).2 =
      .ok (BaseFramework.initFields { name := "Fw A", is_category_default := true }
        (mkCat 0 "main" true [])) ∧
    (BaseFramework.initFields { name := "Fw A", is_category_default := true }
        (mkCat 0 "main" true [])).is_category_default = true ∧
    BaseCategory.default_framework
      (BaseFramework.init { sampleEnv with completion_mode := true }
        { name := "Fw A", is_category_default := true }
        { registry := [("main", mkCat 0 "main" true [])], nextId := 1 }
        (mkCat 0 "main" true [])).1 =
      some (BaseFramework.initFields { name := "Fw A", is_category_default := true }
        (mkCat 0 "main" true [])) := by
  refine ⟨rfl, rfl, ?_⟩
  rfl

/-- The per-category invariant: at most one member framework carries the
default flag. -/
def atMostOneDefault (cat : BaseCategory) : Prop :=
  cat.frameworks.countP (fun p => p.2.is_category_default) ≤ 1

/-- Clearing the first flagged member empties the flag count whenever at
most one member was flagged. -/
theorem clearFirstDefault_countP_zero (l : List (String × BaseFramework))
    (h : l.countP (fun p => p.2.is_category_default) ≤ 1) :
    (clearFirstDefault l).countP (fun p => p.2.is_category_default) = 0 := by
  induction l with
  | nil => rfl
  | cons p rest ih =>
    obtain ⟨k, f⟩ := p
    rw [List.countP_cons] at h
    unfold clearFirstDefault
    by_cases hf : f.is_category_default = true
    · rw [if_pos hf, List.countP_cons]
      have hrest : rest.countP (fun p => p.2.is_category_default) = 0 := by
        simp only [hf, if_pos] at h
        omega
      simp [hrest]
    · rw [if_neg hf, List.countP_cons]
      have hrest := ih (by simp only [hf] at h; omega)
      simp [hrest, hf]

/-- A category without default has zero flagged members. -/
theorem countP_zero_of_default_none (cat : BaseCategory)
    (h : BaseCategory.default_framework cat = none) :
    cat.frameworks.countP (fun p => p.2.is_category_default) = 0 := by
  rw [default_framework_eq_none_iff] at h
  rw [List.countP_eq_zero]
  intro p hp
  simp [h p hp]

/-- A category with zero flagged members has no default. -/
theorem default_none_of_countP_zero (cat : BaseCategory)
    (h : cat.frameworks.countP (fun p => p.2.is_category_default) = 0) :
    BaseCategory.default_framework cat = none := by
  rw [default_framework_eq_none_iff]
  intro p hp
  have := List.countP_eq_zero.mp h p hp
  simpa using this

/-- Registration adds at most the new framework's flag to the count. -/
theorem register_countP_le (cat : BaseCategory) (f : BaseFramework) :
    (BaseCategory.register_framework cat f).frameworks.countP
        (fun p => p.2.is_category_default) ≤
      cat.frameworks.countP (fun p => p.2.is_category_default) +
        (if f.is_category_default then 1 else 0) := by
  unfold BaseCategory.register_framework
  by_cases hk : containsKey cat.frameworks f.prog_name = true
  · rw [if_pos hk]
    omega
  · rw [if_neg hk]
    show (cat.frameworks ++ [(f.prog_name, f)]).countP (fun p => p.2.is_category_default) ≤ _
    rw [List.countP_append]
    simp [List.countP_cons]

/-- The three outcomes of the conflict resolution: flag cleared with the
category untouched, flag cleared with the prior default also cleared, or
nothing changed — the last only when no claim was made or no prior
default existed. -/
theorem resolveDefaultConflict_cases (st : RegState) (cat : BaseCategory) (f : BaseFramework) :
    BaseFramework.resolveDefaultConflict st cat f =
        ({ f with is_category_default := false }, cat) ∨
    BaseFramework.resolveDefaultConflict st cat f =
        ({ f with is_category_default := false },
         { cat with frameworks := clearFirstDefault cat.frameworks }) ∨
    (BaseFramework.resolveDefaultConflict st cat f = (f, cat) ∧
      (f.is_category_default = false ∨ BaseCategory.default_framework cat = none)) := by
  unfold BaseFramework.resolveDefaultConflict
  by_cases h1 : f.is_category_default
  · rw [if_pos h1]
    by_cases h2 : isMainCategoryOf st cat
    · rw [if_pos h2]
      exact Or.inl rfl
    · rw [if_neg h2]
      by_cases h3 : (BaseCategory.default_framework cat).isSome
      · rw [if_pos h3]
        exact Or.inr (Or.inl rfl)
      · rw [if_neg h3]
        refine Or.inr (Or.inr ⟨rfl, Or.inr ?_⟩)
        cases hd : BaseCategory.default_framework cat with
        | none => rfl
        | some d => rw [hd] at h3; simp at h3
  · rw [if_neg h1]
    exact Or.inr (Or.inr ⟨rfl, Or.inl (by simpa using h1)⟩)

/-- Outside completion mode a single framework construction preserves the
at-most-one-default invariant on the owning category, whatever the
arguments and environment. -/
theorem init_preserves_atMostOne (env : Env) (args : FwArgs) (st : RegState)
    (cat : BaseCategory) (hc : env.completion_mode = false)
    (h : atMostOneDefault cat) :
    atMostOneDefault (BaseFramework.init env args st cat).1 := by
  have hflag := fwPre_flag_eq env args st cat
  have hsnd := fwPre_snd_eq env args st cat
  have hcat2 : atMostOneDefault (BaseFramework.fwPre env args st cat).2 ∧
      ((BaseFramework.fwPre env args st cat).1.is_category_default = true →
        (BaseFramework.fwPre env args st cat).2.frameworks.countP
          (fun p => p.2.is_category_default) = 0) := by
    rcases resolveDefaultConflict_cases st cat
      (BaseFramework.setNeedRoot env (BaseFramework.initFields args cat)) with hcs | hcs | hcs3
    · rw [hsnd, hcs]
      refine ⟨h, fun hcontra => ?_⟩
      rw [hflag, hcs] at hcontra
      simp at hcontra
    · rw [hsnd, hcs]
      refine ⟨?_, fun hcontra => ?_⟩
      · show List.countP (fun p => p.2.is_category_default) (clearFirstDefault cat.frameworks) ≤ 1
        rw [clearFirstDefault_countP_zero cat.frameworks h]
        omega
      · rw [hflag, hcs] at hcontra
        simp at hcontra
    · obtain ⟨hcs, hor⟩ := hcs3
      rw [hsnd, hcs]
      refine ⟨h, fun hcontra => ?_⟩
      rcases hor with h4 | h4
      · rw [hflag, hcs] at hcontra
        rw [h4] at hcontra
        simp at hcontra
      · exact countP_zero_of_default_none cat h4
  cases hi : BaseFramework.is_installed env (BaseFramework.fwPre env args st cat).1 with
  | error e =>
    rw [init_noncompletion_error env args st cat e hc hi]
    exact hcat2.1
  | ok inst =>
    rw [init_noncompletion_ok env args st cat inst hc hi]
    by_cases hcond : ¬ inst = true ∧
        ¬ BaseFramework.is_installable env (BaseFramework.fwPre env args st cat).1 = true
    · rw [if_pos hcond]
      exact hcat2.1
    · rw [if_neg hcond]
      show atMostOneDefault (BaseCategory.register_framework _ _)
      unfold atMostOneDefault
      have hr := register_countP_le (BaseFramework.fwPre env args st cat).2
        (BaseFramework.fwPre env args st cat).1
      by_cases hfl : (BaseFramework.fwPre env args st cat).1.is_category_default = true
      · have h0 := hcat2.2 hfl
        rw [hfl] at hr
        simp only [if_pos] at hr
        omega
      · have hfl2 : (BaseFramework.fwPre env args st cat).1.is_category_default = false := by
          simpa using hfl
        rw [hfl2] at hr
        simp only [Bool.false_eq_true, if_false] at hr
        have h1 := hcat2.1
        unfold atMostOneDefault at h1
        omega

/-- The conflict branch proper (lines 164-169): claim on a non-main
category that already has a default clears both flags. -/
theorem resolveDefaultConflict_conflict (st : RegState) (cat : BaseCategory) (f : BaseFramework)
    (hm : isMainCategoryOf st cat = false) (hf : f.is_category_default = true)
    (hd : (BaseCategory.default_framework cat).isSome = true) :
    BaseFramework.resolveDefaultConflict st cat f =
      ({ f with is_category_default := false },
       { cat with frameworks := clearFirstDefault cat.frameworks }) := by
  unfold BaseFramework.resolveDefaultConflict
  rw [if_pos hf, if_neg (by simp [hm]), if_pos hd]

/-- A sequence of framework constructions against one category, with the
registry threaded through as `initR` does. -/
def constructSeq (env : Env) : List FwArgs → RegState → BaseCategory → RegState × BaseCategory
  | [], st, cat => (st, cat)
  | a :: rest, st, cat =>
    constructSeq env rest (BaseFramework.initR env a st cat).1
      (BaseFramework.initR env a st cat).2.1

/-- The invariant survives any construction sequence outside completion
mode. -/
theorem constructSeq_preserves_atMostOne (env : Env) (hc : env.completion_mode = false)
    (l : List FwArgs) (st : RegState) (cat : BaseCategory)
    (h : atMostOneDefault cat) : atMostOneDefault (constructSeq env l st cat).2 := by
  induction l generalizing st cat with
  | nil => exact h
  | cons a rest ih => exact ih _ _ (init_preserves_atMostOne env a st cat hc h)

/-- C1: outside completion mode, constructing a framework that claims the
default on a non-main category which already has a default framework
clears both flags — the constructed framework comes out with
`is_category_default` false and the category is left with no default at
all — and the at-most-one-default invariant holds after this and after
any further construction sequence. -/
theorem C1_default_conflict_clears_both (env : Env) (args : FwArgs) (st : RegState)
    (cat : BaseCategory) (d : BaseFramework)
    (hc : env.completion_mode = false)
    (hm : isMainCategoryOf st cat = false)
    (hf : args.is_category_default = true)
    (hd : BaseCategory.default_framework cat = some d)
    (hinv : atMostOneDefault cat) :
    (∀ f, (BaseFramework.init env args st cat).2 = .ok f → f.is_category_default = false) ∧
    BaseCategory.default_framework (BaseFramework.init env args st cat).1 = none ∧
    atMostOneDefault (BaseFramework.init env args st cat).1 ∧
    ∀ moreArgs, atMostOneDefault (constructSeq env moreArgs
        { st with registry := updateRegistry st.registry (BaseFramework.init env args st cat).1 }
        (BaseFramework.init env args st cat).1).2 := by
  have hf0 : (BaseFramework.setNeedRoot env (BaseFramework.initFields args cat)).is_category_default = true := hf
  have hconf := resolveDefaultConflict_conflict st cat
    (BaseFramework.setNeedRoot env (BaseFramework.initFields args cat)) hm hf0 (by rw [hd]; rfl)
  have hflag : (BaseFramework.fwPre env args st cat).1.is_category_default = false := by
    rw [fwPre_flag_eq, hconf]
  have hcat : (BaseFramework.fwPre env args st cat).2 =
      { cat with frameworks := clearFirstDefault cat.frameworks } := by
    rw [fwPre_snd_eq, hconf]
  have hcount : (BaseFramework.fwPre env args st cat).2.frameworks.countP
      (fun p => p.2.is_category_default) = 0 := by
    rw [hcat]
    exact clearFirstDefault_countP_zero cat.frameworks hinv
  have hnone : BaseCategory.default_framework (BaseFramework.fwPre env args st cat).2 = none :=
    default_none_of_countP_zero _ hcount
  have main3 : (∀ f, (BaseFramework.init env args st cat).2 = .ok f →
        f.is_category_default = false) ∧
      BaseCategory.default_framework (BaseFramework.init env args st cat).1 = none ∧
      atMostOneDefault (BaseFramework.init env args st cat).1 := by
    cases hi : BaseFramework.is_installed env (BaseFramework.fwPre env args st cat).1 with
    | error e =>
      rw [init_noncompletion_error env args st cat e hc hi]
      refine ⟨fun f hfe => Except.noConfusion hfe, hnone, ?_⟩
      show (BaseFramework.fwPre env args st cat).2.frameworks.countP
        (fun p => p.2.is_category_default) ≤ 1
      omega
    | ok inst =>
      rw [init_noncompletion_ok env args st cat inst hc hi]
      by_cases hcond : ¬ inst = true ∧
          ¬ BaseFramework.is_installable env (BaseFramework.fwPre env args st cat).1 = true
      · rw [if_pos hcond]
        refine ⟨fun f hfe => ?_, hnone, ?_⟩
        · injection hfe with hfe2
          rw [← hfe2]
          exact hflag
        · show (BaseFramework.fwPre env args st cat).2.frameworks.countP
            (fun p => p.2.is_category_default) ≤ 1
          omega
      · rw [if_neg hcond]
        refine ⟨fun f hfe => ?_, ?_, ?_⟩
        · injection hfe with hfe2
          rw [← hfe2]
          exact hflag
        · exact register_preserves_no_default _ _ hnone hflag
        · show (BaseCategory.register_framework (BaseFramework.fwPre env args st cat).2
              (BaseFramework.fwPre env args st cat).1).frameworks.countP
            (fun p => p.2.is_category_default) ≤ 1
          have hr := register_countP_le (BaseFramework.fwPre env args st cat).2
            (BaseFramework.fwPre env args st cat).1
          rw [hflag] at hr
          simp only [Bool.false_eq_true, if_false] at hr
          omega
  refine ⟨main3.1, main3.2.1, main3.2.2, fun moreArgs => ?_⟩
  exact constructSeq_preserves_atMostOne env hc moreArgs _ _ main3.2.2

/-- Concrete instantiation of the C1 theorem: a second default claim on a
category with an existing default leaves the category with no default and
the invariant intact. -/
theorem C1_default_conflict_clears_both_witness :
    BaseCategory.default_framework
      (BaseFramework.init sampleEnv { name := "New Kid", is_category_default := true }
        { registry := [("langs", mkCat 9 "langs" false [("old", mkFw "old" 9 true)])], nextId := 10 }
        (mkCat 9 "langs" false [("old", mkFw "old" 9 true)])).1 = none ∧
    atMostOneDefault
      (BaseFramework.init sampleEnv { name := "New Kid", is_category_default := true }
        { registry := [("langs", mkCat 9 "langs" false [("old", mkFw "old" 9 true)])], nextId := 10 }
        (mkCat 9 "langs" false [("old", mkFw "old" 9 true)])).1 := by
  have h := C1_default_conflict_clears_both sampleEnv
    { name := "New Kid", is_category_default := true }
    { registry := [("langs", mkCat 9 "langs" false [("old", mkFw "old" 9 true)])], nextId := 10 }
    (mkCat 9 "langs" false [("old", mkFw "old" 9 true)]) (mkFw "old" 9 true)
    rfl (by decide) rfl (by decide) (by unfold atMostOneDefault; decide)
  exact ⟨h.2.1, h.2.2.1⟩

/-- An architecture whitelist miss makes the framework not installable,
whatever the remaining checks would say. -/
theorem is_installable_arch_fail (env : Env) (f : BaseFramework) (a : String)
    (hne : f.only_on_archs ≠ []) (harch : env.current_arch = some a)
    (hnotin : a ∉ f.only_on_archs) :
    BaseFramework.is_installable env f = false := by
  unfold BaseFramework.is_installable BaseFramework.installableChecks
  rw [if_pos (List.length_pos.mpr hne), harch]
  simp [hnotin]

/-- `clearFirstDefault` does not change the key sequence. -/
theorem clearFirstDefault_keys (l : List (String × BaseFramework)) :
    (clearFirstDefault l).map Prod.fst = l.map Prod.fst := by
  induction l with
  | nil => rfl
  | cons p rest ih =>
    obtain ⟨k, f⟩ := p
    unfold clearFirstDefault
    by_cases hf : f.is_category_default = true
    · rw [if_pos hf]
      rfl
    · rw [if_neg hf]
      simp only [List.map_cons, ih]

/-- The preamble does not change the category's key sequence. -/
theorem fwPre_keys (env : Env) (args : FwArgs) (st : RegState) (cat : BaseCategory) :
    (BaseFramework.fwPre env args st cat).2.frameworks.map Prod.fst =
      cat.frameworks.map Prod.fst := by
  rw [fwPre_snd_eq]
  rcases resolveDefaultConflict_snd_eq st cat
    (BaseFramework.setNeedRoot env (BaseFramework.initFields args cat)) with h | h
  · rw [h]
  · rw [h]
    exact clearFirstDefault_keys cat.frameworks

/-- C3 counterexample: a framework whose architecture whitelist excludes
the current machine (whitelist `armhf`, machine `amd64`) is nevertheless
registered, because its install directory exists and its requirement
bucket is installed — line 183 short-circuits on `self.is_installed`
before consulting `is_installable`. Completion mode registers such a
framework as well. -/
theorem C3_arch_mismatch_registered_counterexample :
    ({ name := "Arm Only", only_on_archs := some ["armhf"] } : FwArgs).only_on_archs =
      some ["armhf"] ∧
    sampleEnv.current_arch = some "amd64" ∧
    ("amd64" ∈ ["armhf"]) = False ∧
    containsKey
      (BaseFramework.init sampleEnv { name := "Arm Only", only_on_archs := some ["armhf"] }
        stEmpty (mkCat 3 "cats" false [])).1.frameworks
      (progNameOf "Arm Only") = true := by
  refine ⟨rfl, rfl, by simp, ?_⟩
  rfl

/-- C3 amended: outside completion mode, a framework constructed with a
non-empty architecture whitelist that does not contain the current
machine architecture and whose resolved install state is not
already-installed is never registered: the category's framework key
sequence is unchanged by the construction. -/
theorem C3_arch_mismatch_not_registered (env : Env) (args : FwArgs) (st : RegState)
    (cat : BaseCategory) (archs : List String) (a : String)
    (hc : env.completion_mode = false)
    (ha : args.only_on_archs = some archs)
    (hne : archs ≠ [])
    (harch : env.current_arch = some a)
    (hnotin : a ∉ archs)
    (hinst : BaseFramework.is_installed env (BaseFramework.fwPre env args st cat).1 ≠ .ok true) :
    (BaseFramework.init env args st cat).1.frameworks.map Prod.fst =
      cat.frameworks.map Prod.fst := by
  have harchs : (BaseFramework.fwPre env args st cat).1.only_on_archs = archs := by
    rw [(fwPre_proj env args st cat).2.1, ha]
    rfl
  have hia : BaseFramework.is_installable env (BaseFramework.fwPre env args st cat).1 = false := by
    refine is_installable_arch_fail env _ a ?_ harch ?_
    · rw [harchs]
      exact hne
    · rw [harchs]
      exact hnotin
  cases hi : BaseFramework.is_installed env (BaseFramework.fwPre env args st cat).1 with
  | error e =>
    rw [init_noncompletion_error env args st cat e hc hi]
    exact fwPre_keys env args st cat
  | ok inst =>
    cases inst with
    | true => exact absurd hi hinst
    | false =>
      rw [init_noncompletion_ok env args st cat false hc hi]
      rw [if_pos ⟨by simp, by rw [hia]; simp⟩]
      exact fwPre_keys env args st cat

/-- Decidable equality on evaluation results, for concrete checks. -/
instance exceptDecEq {e a : Type} [DecidableEq e] [DecidableEq a] :
    DecidableEq (Except e a) := fun x y =>
  match x, y with
  | .ok v, .ok w =>
    if h : v = w then isTrue (by rw [h]) else
      isFalse (fun hc => by injection hc with h2; exact h h2)
  | .error v, .error w =>
    if h : v = w then isTrue (by rw [h]) else
      isFalse (fun hc => by injection hc with h2; exact h h2)
  | .ok v, .error w => isFalse (fun hc => Except.noConfusion hc)
  | .error v, .ok w => isFalse (fun hc => Except.noConfusion hc)

/-- Concrete instantiation of the C3 amended theorem: with the install
directory absent, the arch-mismatched framework stays out of the
category. -/
theorem C3_arch_mismatch_not_registered_witness :
    (BaseFramework.init { sampleEnv with isdir := fun _ => false }
        { name := "Arm Only", only_on_archs := some ["armhf"] }
        stEmpty (mkCat 3 "cats" false [])).1.frameworks.map Prod.fst =
      (mkCat 3 "cats" false []).frameworks.map Prod.fst :=
  C3_arch_mismatch_not_registered { sampleEnv with isdir := fun _ => false }
    { name := "Arm Only", only_on_archs := some ["armhf"] } stEmpty (mkCat 3 "cats" false [])
    ["armhf"] "amd64" rfl rfl (by simp) rfl (by simp) (by decide)

/-- C10 counterexample: a completion-mode framework that is not
installable (arch whitelist misses the machine). `setup` does not fail
with an attribute error — it refuses at the `is_installable` guard
(lines 221-224) and returns before ever reading `need_root_access`. -/
theorem C10_completion_setup_counterexample :
    (BaseFramework.init { sampleEnv with completion_mode := true }
        { name := "Arm Only", only_on_archs := some ["armhf"] } stEmpty
        (mkCat 3 "cats" false [])).2 =
      .ok (BaseFramework.initFields { name := "Arm Only", only_on_archs := some ["armhf"] }
        (mkCat 3 "cats" false [])) ∧
    (BaseFramework.initFields { name := "Arm Only", only_on_archs := some ["armhf"] }
        (mkCat 3 "cats" false [])).install_path = none ∧
    BaseFramework.setup sampleEnv
      (BaseFramework.initFields { name := "Arm Only", only_on_archs := some ["armhf"] }
        (mkCat 3 "cats" false [])) none =
      .ok (.refused,
        BaseFramework.initFields { name := "Arm Only", only_on_archs := some ["armhf"] }
          (mkCat 3 "cats" false [])) :=
  ⟨rfl, rfl, rfl⟩

/-- C10 amended: in completion mode the constructor registers the
framework and returns before assigning `need_root_access`,
`default_install_path` and `install_path`; on such an object
`is_installed` always fails with an attribute error, and `setup` fails
with an attribute error whenever the framework is installable (when it
is not, `setup` refuses and returns early without touching the missing
attribute). -/
theorem C10_completion_mode_partial_object (env : Env) (args : FwArgs) (st : RegState)
    (cat : BaseCategory) (hc : env.completion_mode = true) :
    (BaseFramework.init env args st cat).2 = .ok (BaseFramework.initFields args cat) ∧
    (BaseFramework.init env args st cat).1 =
      BaseCategory.register_framework cat (BaseFramework.initFields args cat) ∧
    (BaseFramework.initFields args cat).need_root_access = none ∧
    (BaseFramework.initFields args cat).default_install_path = none ∧
    (BaseFramework.initFields args cat).install_path = none ∧
    (∀ env2, BaseFramework.is_installed env2 (BaseFramework.initFields args cat) =
      .error .attributeError) ∧
    (∀ env2 p, BaseFramework.is_installable env2 (BaseFramework.initFields args cat) = true →
      BaseFramework.setup env2 (BaseFramework.initFields args cat) p =
        .error .attributeError) := by
  have hinit : BaseFramework.init env args st cat =
      (BaseCategory.register_framework cat (BaseFramework.initFields args cat),
       .ok (BaseFramework.initFields args cat)) := by
    unfold BaseFramework.init
    rw [hc]
    rfl
  refine ⟨by rw [hinit], by rw [hinit], rfl, rfl, rfl, fun env2 => rfl, fun env2 p hi => ?_⟩
  unfold BaseFramework.setup
  rw [if_neg (by rw [hi]; simp)]
  rfl

/-- Concrete instantiation of the C10 amended theorem: a completion-mode
object with no whitelists is installable, and both `is_installed` and
`setup` fail with the attribute error. -/
theorem C10_completion_mode_partial_object_witness :
    BaseFramework.is_installed sampleEnv
      (BaseFramework.initFields { name := "Quick" } (mkCat 3 "cats" false [])) =
      .error .attributeError ∧
    BaseFramework.setup sampleEnv
      (BaseFramework.initFields { name := "Quick" } (mkCat 3 "cats" false [])) none =
      .error .attributeError := by
  have h := C10_completion_mode_partial_object { sampleEnv with completion_mode := true }
    { name := "Quick" } stEmpty (mkCat 3 "cats" false []) rfl
  exact ⟨h.2.2.2.2.2.1 sampleEnv, h.2.2.2.2.2.2 sampleEnv none (by decide)⟩

/-- A framework declaration found in a plugin module: either valid
constructor arguments, or a declaration whose instantiation raises
`TypeError`, caught and logged at lines 298-302. -/
inductive FwDecl where
  | decl (args : FwArgs)
  | typeMismatch
  deriving DecidableEq, Repr

/-- What `inspect.getmembers` finds in one plugin module, in member
order: the category classes, then the framework classes
(lines 294-302). -/
structure ModuleDecl where
  categoryDecls : List CatArgs
  frameworkDecls : List FwDecl
  deriving DecidableEq, Repr

/-- Lines 294-296: instantiating one found category class; the freshly
constructed object becomes the current category. -/
def catStep (p : RegState × BaseCategory) (cargs : CatArgs) : RegState × BaseCategory :=
  BaseCategory.init p.1 cargs

/-- Lines 297-302: instantiating one found framework class against the
current category; a `TypeError` claim is skipped, otherwise the
construction mutates the current category (and the registry through
aliasing). -/
def fwStep (env : Env) (p : RegState × BaseCategory) (fd : FwDecl) : RegState × BaseCategory :=
  match fd with
  | .typeMismatch => p
  | .decl args =>
    ((BaseFramework.initR env args p.1 p.2).1, (BaseFramework.initR env args p.1 p.2).2.1)

/-- Lines 293-302 for one module: the current category starts as the main
category, every found category class is instantiated in order (the last
one wins), then every found framework class is instantiated against the
current category. Mutations of the main-category object (when a module
declares no category) are threaded back. -/
def processModule (env : Env) (stMain : RegState × BaseCategory) (m : ModuleDecl) :
    RegState × BaseCategory :=
  let sc := m.categoryDecls.foldl catStep stMain
  let sf := m.frameworkDecls.foldl (fwStep env) sc
  (sf.1, if sf.2.id = stMain.2.id then sf.2 else stMain.2)

/-- `load_frameworks` (lines 282-302): instantiate `MainCategory`, then
process every plugin module in order. The class attribute
`BaseCategory.categories` (line 46) is NOT cleared here: the pass starts
from whatever registry state the process already holds. -/
def load_frameworks (env : Env) (st : RegState) (modules : List ModuleDecl) : RegState :=
  let sm := MainCategory.init st
  (modules.foldl (processModule env) (sm.1, sm.2)).1

/-- C4 counterexample: the registry is not created fresh at the start of
a discovery pass. A category registered before the pass (here `foo`,
which no plugin declares) is still registered after the pass — a freshly
created registry could only hold names declared during the pass. -/
theorem C4_registry_not_fresh_counterexample :
    containsKey
      (load_frameworks sampleEnv
        { registry := [("foo", mkCat 0 "foo" false [])], nextId := 1 } []).registry
      "foo" = true ∧
    lookupKey
      (load_frameworks sampleEnv
        { registry := [("foo", mkCat 0 "foo" false [])], nextId := 1 } []).registry
      "foo" = some (mkCat 0 "foo" false []) :=
  ⟨rfl, rfl⟩

/-- All registered ids are below the fresh-id counter. -/
def idsBounded (st : RegState) : Prop :=
  ∀ p ∈ st.registry, p.2.id < st.nextId

/-- The registry after a category construction, both branches of the
duplicate check. -/
theorem catInit_registry (st : RegState) (a : CatArgs) :
    (BaseCategory.init st a).1.registry =
      (if containsKey st.registry (progNameOf a.name) = true then st.registry
       else st.registry ++ [(progNameOf a.name, (BaseCategory.init st a).2)]) := by
  dsimp only [BaseCategory.init, BaseCategory.prog_name]
  by_cases h : containsKey st.registry (progNameOf a.name) = true
  · rw [if_pos h, if_pos h]
  · rw [if_neg h, if_neg h]

/-- A category construction always increments the id counter. -/
theorem catInit_nextId (st : RegState) (a : CatArgs) :
    (BaseCategory.init st a).1.nextId = st.nextId + 1 := by
  dsimp only [BaseCategory.init]
  split <;> rfl

/-- The constructed category takes the current counter as identity. -/
theorem catInit_cat_id (st : RegState) (a : CatArgs) :
    (BaseCategory.init st a).2.id = st.nextId := by
  dsimp only [BaseCategory.init]
  split <;> rfl

/-- Key membership distributes over dict concatenation. -/
theorem containsKey_append {α : Type} (l1 l2 : List (String × α)) (k : String) :
    containsKey (l1 ++ l2) k = (containsKey l1 k || containsKey l2 k) := by
  unfold containsKey
  exact List.any_append

/-- Registered keys survive a category construction. -/
theorem catInit_keys_mono (st : RegState) (a : CatArgs) (k : String)
    (h : containsKey st.registry k = true) :
    containsKey (BaseCategory.init st a).1.registry k = true := by
  rw [catInit_registry]
  split
  · exact h
  · rw [containsKey_append, h]
    rfl

/-- After constructing a category its program-name is registered (either
it already was, or it just got inserted). -/
theorem catInit_key_self (st : RegState) (a : CatArgs) :
    containsKey (BaseCategory.init st a).1.registry (progNameOf a.name) = true := by
  rw [catInit_registry]
  by_cases h : containsKey st.registry (progNameOf a.name) = true
  · rw [if_pos h]
    exact h
  · rw [if_neg h, containsKey_append]
    simp [containsKey]

/-- A category construction preserves the id bound. -/
theorem catInit_idsBounded (st : RegState) (a : CatArgs) (h : idsBounded st) :
    idsBounded (BaseCategory.init st a).1 := by
  intro p hp
  rw [catInit_nextId]
  rw [catInit_registry] at hp
  split at hp
  · exact Nat.lt_succ_of_lt (h p hp)
  · rcases List.mem_append.mp hp with h1 | h2
    · exact Nat.lt_succ_of_lt (h p h1)
    · rw [List.mem_singleton.mp h2]
      show (BaseCategory.init st a).2.id < st.nextId + 1
      rw [catInit_cat_id]
      omega

/-- Writing back an object aliased by no registry slot changes
nothing. -/
theorem updateRegistry_id_not_mem (reg : List (String × BaseCategory)) (cat : BaseCategory)
    (h : ∀ p ∈ reg, p.2.id ≠ cat.id) : updateRegistry reg cat = reg := by
  unfold updateRegistry
  induction reg with
  | nil => rfl
  | cons p rest ih =>
    simp only [List.map_cons]
    rw [if_neg (h p (List.mem_cons_self p rest))]
    rw [ih (fun q hq => h q (List.mem_cons_of_mem p hq))]

/-- Writing back a mutated category keeps the key sequence. -/
theorem updateRegistry_keys (reg : List (String × BaseCategory)) (cat : BaseCategory) :
    (updateRegistry reg cat).map Prod.fst = reg.map Prod.fst := by
  unfold updateRegistry
  induction reg with
  | nil => rfl
  | cons p rest ih =>
    simp only [List.map_cons, ih]
    by_cases h : p.2.id = cat.id
    · rw [if_pos h]
    · rw [if_neg h]

/-- Key membership only depends on the key sequence. -/
theorem containsKey_eq_of_keys_eq {α : Type} (l1 l2 : List (String × α))
    (h : l1.map Prod.fst = l2.map Prod.fst) (k : String) :
    containsKey l1 k = containsKey l2 k := by
  have hany : ∀ (l : List (String × α)),
      containsKey l k = (l.map Prod.fst).any (fun s => s = k) := by
    intro l
    induction l with
    | nil => rfl
    | cons p rest ih =>
      show (decide (p.1 = k) || containsKey rest k) = _
      rw [ih]
      rfl
  rw [hany, hany, h]

/-- Writing back a mutated category keeps every id bound: the written
object replaces only slots that already carried its id. -/
theorem updateRegistry_ids_lt (reg : List (String × BaseCategory)) (cat : BaseCategory)
    (n : Nat) (h : ∀ p ∈ reg, p.2.id < n) :
    ∀ q ∈ updateRegistry reg cat, q.2.id < n := by
  intro q hq
  unfold updateRegistry at hq
  obtain ⟨p, hp, hpq⟩ := List.mem_map.mp hq
  by_cases he : p.2.id = cat.id
  · rw [if_pos he] at hpq
    rw [← hpq]
    show cat.id < n
    rw [← he]
    exact h p hp
  · rw [if_neg he] at hpq
    rw [← hpq]
    exact h p hp

/-- Framework registration does not change the category's identity. -/
theorem register_id (cat : BaseCategory) (f : BaseFramework) :
    (BaseCategory.register_framework cat f).id = cat.id := by
  unfold BaseCategory.register_framework
  split <;> rfl

/-- The constructor preamble does not change the category's identity. -/
theorem fwPre_snd_id (env : Env) (args : FwArgs) (st : RegState) (cat : BaseCategory) :
    (BaseFramework.fwPre env args st cat).2.id = cat.id := by
  rw [fwPre_snd_eq]
  rcases resolveDefaultConflict_snd_eq st cat
    (BaseFramework.setNeedRoot env (BaseFramework.initFields args cat)) with h | h <;> rw [h]

/-- A framework construction never changes the owning category's
identity. -/
theorem init_cat_id (env : Env) (args : FwArgs) (st : RegState) (cat : BaseCategory) :
    (BaseFramework.init env args st cat).1.id = cat.id := by
  by_cases hc : env.completion_mode = true
  · have hcomp : BaseFramework.init env args st cat =
        (BaseCategory.register_framework cat (BaseFramework.initFields args cat),
         .ok (BaseFramework.initFields args cat)) := by
      unfold BaseFramework.init
      rw [hc]
      rfl
    rw [hcomp]
    exact register_id cat _
  · have hc2 : env.completion_mode = false := by simpa using hc
    cases hi : BaseFramework.is_installed env (BaseFramework.fwPre env args st cat).1 with
    | error e =>
      rw [init_noncompletion_error env args st cat e hc2 hi]
      exact fwPre_snd_id env args st cat
    | ok inst =>
      rw [init_noncompletion_ok env args st cat inst hc2 hi]
      split
      · exact fwPre_snd_id env args st cat
      · show (BaseCategory.register_framework _ _).id = cat.id
        rw [register_id]
        exact fwPre_snd_id env args st cat

/-- When the current category aliases no registry slot, a framework
construction leaves the registry untouched. -/
theorem initR_registry_not_mem (env : Env) (args : FwArgs) (st : RegState)
    (cat : BaseCategory) (h : ∀ p ∈ st.registry, p.2.id ≠ cat.id) :
    (BaseFramework.initR env args st cat).1.registry = st.registry := by
  show updateRegistry st.registry (BaseFramework.init env args st cat).1 = st.registry
  apply updateRegistry_id_not_mem
  intro p hp
  rw [init_cat_id]
  exact h p hp

/-- A framework construction never touches the id counter. -/
theorem initR_nextId (env : Env) (args : FwArgs) (st : RegState) (cat : BaseCategory) :
    (BaseFramework.initR env args st cat).1.nextId = st.nextId := rfl

/-- A framework construction keeps the registry's key sequence. -/
theorem initR_keys (env : Env) (args : FwArgs) (st : RegState) (cat : BaseCategory) :
    (BaseFramework.initR env args st cat).1.registry.map Prod.fst =
      st.registry.map Prod.fst := by
  show (updateRegistry st.registry (BaseFramework.init env args st cat).1).map Prod.fst = _
  exact updateRegistry_keys st.registry _

/-- A framework construction keeps every registry id bound. -/
theorem initR_idsBounded (env : Env) (args : FwArgs) (st : RegState) (cat : BaseCategory)
    (h : idsBounded st) : idsBounded (BaseFramework.initR env args st cat).1 := by
  intro q hq
  rw [initR_nextId]
  exact updateRegistry_ids_lt st.registry _ st.nextId h q hq

/-- The registry component of a module's processing is the one the two
folds produce. -/
theorem processModule_fst (env : Env) (s : RegState × BaseCategory) (m : ModuleDecl) :
    (processModule env s m).1 =
      (m.frameworkDecls.foldl (fwStep env) (m.categoryDecls.foldl catStep s)).1 := rfl

/-- Registered keys survive a run of category instantiations. -/
theorem foldl_catStep_keys_mono : ∀ (l : List CatArgs) (s : RegState × BaseCategory) (k : String),
    containsKey s.1.registry k = true →
    containsKey (l.foldl catStep s).1.registry k = true
  | [], _, _, h => h
  | a :: rest, s, k, h =>
    foldl_catStep_keys_mono rest (catStep s a) k (catInit_keys_mono s.1 a k h)

/-- Every instantiated category's program-name is registered after the
run of category instantiations. -/
theorem foldl_catStep_key_of_mem : ∀ (l : List CatArgs) (s : RegState × BaseCategory)
    (a : CatArgs), a ∈ l →
    containsKey (l.foldl catStep s).1.registry (progNameOf a.name) = true
  | [], _, _, ha => absurd ha (List.not_mem_nil _)
  | b :: rest, s, a, ha => by
    rcases List.mem_cons.mp ha with h1 | h2
    · subst h1
      exact foldl_catStep_keys_mono rest (catStep s a) _ (catInit_key_self s.1 a)
    · exact foldl_catStep_key_of_mem rest (catStep s b) a h2

/-- A run of category instantiations keeps the ids bounded. -/
theorem foldl_catStep_idsBounded : ∀ (l : List CatArgs) (s : RegState × BaseCategory),
    idsBounded s.1 → idsBounded (l.foldl catStep s).1
  | [], _, h => h
  | a :: rest, s, h =>
    foldl_catStep_idsBounded rest (catStep s a) (catInit_idsBounded s.1 a h)

/-- A run of framework instantiations leaves key membership unchanged. -/
theorem foldl_fwStep_keys (env : Env) : ∀ (l : List FwDecl) (s : RegState × BaseCategory)
    (k : String),
    containsKey (l.foldl (fwStep env) s).1.registry k = containsKey s.1.registry k
  | [], _, _ => rfl
  | fd :: rest, s, k => by
    rw [List.foldl_cons, foldl_fwStep_keys env rest (fwStep env s fd) k]
    cases fd with
    | typeMismatch => rfl
    | decl args =>
      exact containsKey_eq_of_keys_eq _ _ (initR_keys env args s.1 s.2) k

/-- A run of framework instantiations keeps the ids bounded. -/
theorem foldl_fwStep_idsBounded (env : Env) : ∀ (l : List FwDecl)
    (s : RegState × BaseCategory), idsBounded s.1 → idsBounded (l.foldl (fwStep env) s).1
  | [], _, h => h
  | fd :: rest, s, h => by
    rw [List.foldl_cons]
    refine foldl_fwStep_idsBounded env rest (fwStep env s fd) ?_
    cases fd with
    | typeMismatch => exact h
    | decl args => exact initR_idsBounded env args s.1 s.2 h

/-- Registered keys survive a module's processing. -/
theorem processModule_keys_mono (env : Env) (s : RegState × BaseCategory) (m : ModuleDecl)
    (k : String) (h : containsKey s.1.registry k = true) :
    containsKey (processModule env s m).1.registry k = true := by
  rw [processModule_fst, foldl_fwStep_keys]
  exact foldl_catStep_keys_mono m.categoryDecls s k h

/-- Every category declared by a module is registered after the module is
processed. -/
theorem processModule_key_of_decl (env : Env) (s : RegState × BaseCategory) (m : ModuleDecl)
    (a : CatArgs) (ha : a ∈ m.categoryDecls) :
    containsKey (processModule env s m).1.registry (progNameOf a.name) = true := by
  rw [processModule_fst, foldl_fwStep_keys]
  exact foldl_catStep_key_of_mem m.categoryDecls s a ha

/-- A module's processing keeps the ids bounded. -/
theorem processModule_idsBounded (env : Env) (s : RegState × BaseCategory) (m : ModuleDecl)
    (h : idsBounded s.1) : idsBounded (processModule env s m).1 := by
  rw [processModule_fst]
  exact foldl_fwStep_idsBounded env m.frameworkDecls _
    (foldl_catStep_idsBounded m.categoryDecls s h)

/-- Registered keys survive a run of module processings. -/
theorem foldl_processModule_keys_mono (env : Env) : ∀ (ms : List ModuleDecl)
    (s : RegState × BaseCategory) (k : String),
    containsKey s.1.registry k = true →
    containsKey (ms.foldl (processModule env) s).1.registry k = true
  | [], _, _, h => h
  | m :: rest, s, k, h =>
    foldl_processModule_keys_mono env rest (processModule env s m) k
      (processModule_keys_mono env s m k h)

/-- Every category declared by any processed module is registered after
the run. -/
theorem foldl_processModule_key_of_decl (env : Env) : ∀ (ms : List ModuleDecl)
    (s : RegState × BaseCategory) (m : ModuleDecl) (a : CatArgs), m ∈ ms →
    a ∈ m.categoryDecls →
    containsKey (ms.foldl (processModule env) s).1.registry (progNameOf a.name) = true
  | [], _, _, _, hm, _ => absurd hm (List.not_mem_nil _)
  | m2 :: rest, s, m, a, hm, ha => by
    rcases List.mem_cons.mp hm with h1 | h2
    · subst h1
      exact foldl_processModule_keys_mono env rest (processModule env s m) _
        (processModule_key_of_decl env s m a ha)
    · exact foldl_processModule_key_of_decl env rest (processModule env s m2) m a h2 ha

/-- A run of module processings keeps the ids bounded. -/
theorem foldl_processModule_idsBounded (env : Env) : ∀ (ms : List ModuleDecl)
    (s : RegState × BaseCategory), idsBounded s.1 →
    idsBounded (ms.foldl (processModule env) s).1
  | [], _, h => h
  | m :: rest, s, h =>
    foldl_processModule_idsBounded env rest (processModule env s m)
      (processModule_idsBounded env s m h)

/-- After a discovery pass the main category's name is registered. -/
theorem load_frameworks_main_key (env : Env) (st : RegState) (modules : List ModuleDecl) :
    containsKey (load_frameworks env st modules).registry "main" = true := by
  show containsKey (modules.foldl (processModule env)
    ((MainCategory.init st).1, (MainCategory.init st).2)).1.registry "main" = true
  refine foldl_processModule_keys_mono env modules _ "main" ?_
  have h := catInit_key_self st { name := "main", is_main_category := true }
  rw [show progNameOf "main" = "main" from rfl] at h
  exact h

/-- After a discovery pass every declared category name is registered. -/
theorem load_frameworks_decl_keys (env : Env) (st : RegState) (modules : List ModuleDecl)
    (m : ModuleDecl) (a : CatArgs) (hm : m ∈ modules) (ha : a ∈ m.categoryDecls) :
    containsKey (load_frameworks env st modules).registry (progNameOf a.name) = true := by
  show containsKey (modules.foldl (processModule env)
    ((MainCategory.init st).1, (MainCategory.init st).2)).1.registry (progNameOf a.name) = true
  exact foldl_processModule_key_of_decl env modules _ m a hm ha

/-- A discovery pass keeps the ids bounded. -/
theorem load_frameworks_idsBounded (env : Env) (st : RegState) (modules : List ModuleDecl)
    (h : idsBounded st) : idsBounded (load_frameworks env st modules) := by
  show idsBounded (modules.foldl (processModule env)
    ((MainCategory.init st).1, (MainCategory.init st).2)).1
  exact foldl_processModule_idsBounded env modules _
    (catInit_idsBounded st { name := "main", is_main_category := true } h)

/-- The invariant of a discovery pass over an already-populated registry:
the registry is frozen, the counter has only grown, ids stay bounded, and
the current category aliases no registry slot. -/
def frozen (R : List (String × BaseCategory)) (n : Nat) (s : RegState × BaseCategory) : Prop :=
  s.1.registry = R ∧ n ≤ s.1.nextId ∧ idsBounded s.1 ∧
    ∀ p ∈ s.1.registry, p.2.id ≠ s.2.id

/-- A category instantiation whose name is already registered preserves
the frozen invariant. -/
theorem catStep_frozen (R : List (String × BaseCategory)) (n : Nat)
    (s : RegState × BaseCategory) (a : CatArgs)
    (hk : containsKey R (progNameOf a.name) = true)
    (h : frozen R n s) : frozen R n (catStep s a) := by
  obtain ⟨h1, h2, h3, h4⟩ := h
  have hreg : (BaseCategory.init s.1 a).1.registry = s.1.registry := by
    rw [catInit_registry, if_pos (by rw [h1]; exact hk)]
  refine ⟨?_, ?_, ?_, ?_⟩
  · show (BaseCategory.init s.1 a).1.registry = R
    rw [hreg, h1]
  · show n ≤ (BaseCategory.init s.1 a).1.nextId
    rw [catInit_nextId]
    omega
  · exact catInit_idsBounded s.1 a h3
  · intro p hp
    show p.2.id ≠ (BaseCategory.init s.1 a).2.id
    rw [catInit_cat_id]
    have hin : p ∈ s.1.registry := by
      show p ∈ s.1.registry
      rw [← hreg]
      exact hp
    have := h3 p hin
    omega

/-- A framework instantiation against an unregistered current category
preserves the frozen invariant. -/
theorem fwStep_frozen (env : Env) (R : List (String × BaseCategory)) (n : Nat)
    (s : RegState × BaseCategory) (fd : FwDecl)
    (h : frozen R n s) : frozen R n (fwStep env s fd) := by
  obtain ⟨h1, h2, h3, h4⟩ := h
  cases fd with
  | typeMismatch => exact ⟨h1, h2, h3, h4⟩
  | decl args =>
    have hreg : (BaseFramework.initR env args s.1 s.2).1.registry = s.1.registry :=
      initR_registry_not_mem env args s.1 s.2 h4
    refine ⟨?_, ?_, ?_, ?_⟩
    · show (BaseFramework.initR env args s.1 s.2).1.registry = R
      rw [hreg, h1]
    · show n ≤ (BaseFramework.initR env args s.1 s.2).1.nextId
      rw [initR_nextId]
      exact h2
    · exact initR_idsBounded env args s.1 s.2 h3
    · intro p hp
      show p.2.id ≠ (BaseFramework.initR env args s.1 s.2).2.1.id
      have hid : (BaseFramework.initR env args s.1 s.2).2.1.id = s.2.id :=
        init_cat_id env args s.1 s.2
      rw [hid]
      refine h4 p ?_
      rw [← hreg]
      exact hp

/-- A run of already-registered category instantiations preserves the
frozen invariant. -/
theorem foldl_catStep_frozen (R : List (String × BaseCategory)) (n : Nat) :
    ∀ (l : List CatArgs) (s : RegState × BaseCategory),
    (∀ a ∈ l, containsKey R (progNameOf a.name) = true) →
    frozen R n s → frozen R n (l.foldl catStep s)
  | [], _, _, h => h
  | a :: rest, s, hk, h =>
    foldl_catStep_frozen R n rest (catStep s a)
      (fun b hb => hk b (List.mem_cons_of_mem a hb))
      (catStep_frozen R n s a (hk a (List.mem_cons_self a rest)) h)

/-- A run of framework instantiations preserves the frozen invariant. -/
theorem foldl_fwStep_frozen (env : Env) (R : List (String × BaseCategory)) (n : Nat) :
    ∀ (l : List FwDecl) (s : RegState × BaseCategory),
    frozen R n s → frozen R n (l.foldl (fwStep env) s)
  | [], _, h => h
  | fd :: rest, s, h =>
    foldl_fwStep_frozen env R n rest (fwStep env s fd) (fwStep_frozen env R n s fd h)

/-- Processing a module whose declared categories are all registered
already preserves the frozen invariant. -/
theorem processModule_frozen (env : Env) (R : List (String × BaseCategory)) (n : Nat)
    (s : RegState × BaseCategory) (m : ModuleDecl)
    (hk : ∀ a ∈ m.categoryDecls, containsKey R (progNameOf a.name) = true)
    (h : frozen R n s) : frozen R n (processModule env s m) := by
  have hsf := foldl_fwStep_frozen env R n m.frameworkDecls _
    (foldl_catStep_frozen R n m.categoryDecls s hk h)
  obtain ⟨a1, a2, a3, a4⟩ := hsf
  refine ⟨a1, a2, a3, ?_⟩
  intro p hp
  show p.2.id ≠ (processModule env s m).2.id
  have hp2 : p ∈ (m.frameworkDecls.foldl (fwStep env)
      (m.categoryDecls.foldl catStep s)).1.registry := hp
  by_cases he : (m.frameworkDecls.foldl (fwStep env)
      (m.categoryDecls.foldl catStep s)).2.id = s.2.id
  · show p.2.id ≠ (if (m.frameworkDecls.foldl (fwStep env)
        (m.categoryDecls.foldl catStep s)).2.id = s.2.id then
      (m.frameworkDecls.foldl (fwStep env) (m.categoryDecls.foldl catStep s)).2 else s.2).id
    rw [if_pos he, he]
    have hin : p ∈ s.1.registry := by
      rw [h.1, ← a1]
      exact hp2
    exact h.2.2.2 p hin
  · show p.2.id ≠ (if (m.frameworkDecls.foldl (fwStep env)
        (m.categoryDecls.foldl catStep s)).2.id = s.2.id then
      (m.frameworkDecls.foldl (fwStep env) (m.categoryDecls.foldl catStep s)).2 else s.2).id
    rw [if_neg he]
    have hin : p ∈ s.1.registry := by
      rw [h.1, ← a1]
      exact hp2
    exact h.2.2.2 p hin

/-- A run of module processings over an already-complete registry
preserves the frozen invariant. -/
theorem foldl_processModule_frozen (env : Env) (R : List (String × BaseCategory)) (n : Nat) :
    ∀ (ms : List ModuleDecl) (s : RegState × BaseCategory),
    (∀ m ∈ ms, ∀ a ∈ m.categoryDecls, containsKey R (progNameOf a.name) = true) →
    frozen R n s → frozen R n (ms.foldl (processModule env) s)
  | [], _, _, h => h
  | m :: rest, s, hk, h =>
    foldl_processModule_frozen env R n rest (processModule env s m)
      (fun m2 hm2 => hk m2 (List.mem_cons_of_mem m hm2))
      (processModule_frozen env R n s m (hk m (List.mem_cons_self m rest)) h)

/-- A discovery pass over a registry that already holds `main` and every
declared category name leaves the registry exactly as it was. -/
theorem load_frameworks_noop (env : Env) (st : RegState) (modules : List ModuleDecl)
    (hmain : containsKey st.registry "main" = true)
    (hkeys : ∀ m ∈ modules, ∀ a ∈ m.categoryDecls,
      containsKey st.registry (progNameOf a.name) = true)
    (hb : idsBounded st) :
    (load_frameworks env st modules).registry = st.registry := by
  have hmreg : (MainCategory.init st).1.registry = st.registry := by
    show (BaseCategory.init st { name := "main", is_main_category := true }).1.registry =
      st.registry
    rw [catInit_registry]
    rw [show progNameOf ({ name := "main", is_main_category := true } : CatArgs).name = "main"
      from rfl]
    rw [if_pos hmain]
  have hfr : frozen st.registry st.nextId
      ((MainCategory.init st).1, (MainCategory.init st).2) := by
    refine ⟨hmreg, ?_, ?_, ?_⟩
    · show st.nextId ≤ (BaseCategory.init st { name := "main", is_main_category := true }).1.nextId
      rw [catInit_nextId]
      omega
    · exact catInit_idsBounded st { name := "main", is_main_category := true } hb
    · intro p hp
      show p.2.id ≠ (BaseCategory.init st { name := "main", is_main_category := true }).2.id
      rw [catInit_cat_id]
      have hin : p ∈ st.registry := by
        rw [← hmreg]
        exact hp
      have := hb p hin
      omega
  exact (foldl_processModule_frozen env st.registry st.nextId modules
    ((MainCategory.init st).1, (MainCategory.init st).2) hkeys hfr).1

/-- C4 amended: the registry is not re-created per pass (it is the class
attribute of line 46 and `load_frameworks` never clears it — see the
counterexample), but discovery is idempotent at the registry level:
running a pass a second time over the same module set leaves the registry
exactly as the first pass left it, because every category name is then
already registered (the duplicates are rejected, and the frameworks
attach to the fresh, unregistered duplicate objects). -/
theorem C4_discovery_idempotent (env : Env) (st : RegState) (modules : List ModuleDecl)
    (hb : idsBounded st) :
    (load_frameworks env (load_frameworks env st modules) modules).registry =
      (load_frameworks env st modules).registry :=
  load_frameworks_noop env (load_frameworks env st modules) modules
    (load_frameworks_main_key env st modules)
    (fun m hm a ha => load_frameworks_decl_keys env st modules m a hm ha)
    (load_frameworks_idsBounded env st modules hb)

/-- Concrete instantiation of the C4 amended theorem: one plugin module
declaring a category, a framework and a broken declaration; the second
pass leaves the registry of the first pass unchanged. -/
theorem C4_discovery_idempotent_witness :
    (load_frameworks sampleEnv
      (load_frameworks sampleEnv { registry := [], nextId := 0 }
        [{ categoryDecls := [{ name := "Web" }],
           frameworkDecls := [.decl { name := "Editor" }, .typeMismatch] }])
      [{ categoryDecls := [{ name := "Web" }],
         frameworkDecls := [.decl { name := "Editor" }, .typeMismatch] }]).registry =
    (load_frameworks sampleEnv { registry := [], nextId := 0 }
      [{ categoryDecls := [{ name := "Web" }],
         frameworkDecls := [.decl { name := "Editor" }, .typeMismatch] }]).registry :=
  C4_discovery_idempotent sampleEnv { registry := [], nextId := 0 }
    [{ categoryDecls := [{ name := "Web" }],
       frameworkDecls := [.decl { name := "Editor" }, .typeMismatch] }]
    (fun p hp => absurd hp (List.not_mem_nil p))
